import Mathlib

set_option maxRecDepth 100000
set_option maxHeartbeats 4000000

/-!
Verification of the alert noise-reduction and correlation engine ("ngs").

This file shallowly embeds the worker-side core of the system — the
fingerprint algorithm, the correlator state machine, the scheduler's periodic
pass, the maintenance scope matcher, the idempotency wrapper, the learning
extractor (pattern cache) and the redactor — as executable Lean definitions
translated from `src/worker/worker/*.py`, and settles a list of claims about
them.  Database tables become in-memory lists, SQL statements become pure
state transformers, timestamps become integer minutes, and the Python `re`
module becomes either an explicit backtracking engine over hand-compiled
pattern ASTs (for the redactor, whose patterns are fixed in the source) or an
abstract engine parameter (where the patterns are runtime data).
-/

namespace NgsProof

/-! ## Python-style string helpers -/

/-- Python `str.lower()` restricted to ASCII (all inputs of interest are ASCII). -/
def pyLower (s : String) : String := ⟨s.data.map Char.toLower⟩

/-- Python `str.upper()` restricted to ASCII. -/
def pyUpper (s : String) : String := ⟨s.data.map Char.toUpper⟩

/-- The whitespace characters stripped by Python `str.strip()` (ASCII subset). -/
def isPySpace (c : Char) : Bool :=
  c == ' ' || c == '\t' || c == '\n' || c == '\r' || c == Char.ofNat 11 || c == Char.ofNat 12

/-- Python `str.strip()`. -/
def pyStrip (s : String) : String :=
  ⟨((s.data.dropWhile isPySpace).reverse.dropWhile isPySpace).reverse⟩

/-- Python slicing `s[:n]` (by code point, as Python slices by character). -/
def pyTake (n : Nat) (s : String) : String := ⟨s.data.take n⟩

/-- UTF-8 encoding of one character (Python `str.encode()`), as byte values. -/
def utf8Char (c : Char) : List Nat :=
  let n := c.toNat
  if n < 0x80 then [n]
  else if n < 0x800 then [0xC0 + n / 64, 0x80 + n % 64]
  else if n < 0x10000 then [0xE0 + n / 4096, 0x80 + (n / 64) % 64, 0x80 + n % 64]
  else [0xF0 + n / 262144, 0x80 + (n / 4096) % 64, 0x80 + (n / 64) % 64, 0x80 + n % 64]

/-- UTF-8 encoding of a string as a byte list. -/
def utf8Encode (s : String) : List Nat :=
  s.data.foldr (fun c acc => utf8Char c ++ acc) []

/-! ## SHA-256

Executable SHA-256 over byte lists, used by `fingerprint.compute_fingerprint_v2`
and `llm_parser.compute_signature`.  Words are `Nat` reduced mod `2^32`.  The
round constants and initial hash values are derived, as in the FIPS 180-4
definition, from the fractional parts of the cube/square roots of the first
primes; the standard test vectors below check the construction. -/

def M32 : Nat := 4294967296

def rotr32 (n x : Nat) : Nat := (x >>> n) ||| ((x % (1 <<< n)) <<< (32 - n))

def shaCh (x y z : Nat) : Nat := (x &&& y) ^^^ ((x ^^^ (M32 - 1)) &&& z)

def shaMaj (x y z : Nat) : Nat := (x &&& y) ^^^ (x &&& z) ^^^ (y &&& z)

def bigSigma0 (x : Nat) : Nat := rotr32 2 x ^^^ rotr32 13 x ^^^ rotr32 22 x

def bigSigma1 (x : Nat) : Nat := rotr32 6 x ^^^ rotr32 11 x ^^^ rotr32 25 x

def smallSigma0 (x : Nat) : Nat := rotr32 7 x ^^^ rotr32 18 x ^^^ (x >>> 3)

def smallSigma1 (x : Nat) : Nat := rotr32 17 x ^^^ rotr32 19 x ^^^ (x >>> 10)

/-- The first 64 primes, sources of the SHA-256 constants. -/
def sha64Primes : List Nat :=
  [2, 3, 5, 7, 11, 13, 17, 19, 23, 29, 31, 37, 41, 43, 47, 53, 59, 61, 67, 71,
   73, 79, 83, 89, 97, 101, 103, 107, 109, 113, 127, 131, 137, 139, 149, 151,
   157, 163, 167, 173, 179, 181, 191, 193, 197, 199, 211, 223, 227, 229, 233,
   239, 241, 251, 257, 263, 269, 271, 277, 281, 283, 293, 307, 311]

/-- Integer cube root by bisection (fuel-bounded; 200 steps cover all inputs used). -/
def icbrtGo : Nat → Nat → Nat → Nat → Nat
  | 0, _, lo, _ => lo
  | fuel + 1, n, lo, hi =>
    if hi ≤ lo + 1 then lo
    else
      let mid := (lo + hi) / 2
      if mid * mid * mid ≤ n then icbrtGo fuel n mid hi else icbrtGo fuel n lo mid

/-- Integer cube root: the largest `r` with `r^3 ≤ n` (for the fuel range used). -/
def icbrt (n : Nat) : Nat := icbrtGo 200 n 0 (n + 2)

/-- Integer square root by bisection (fuel-bounded twin of `icbrtGo`). -/
def isqrtGo : Nat → Nat → Nat → Nat → Nat
  | 0, _, lo, _ => lo
  | fuel + 1, n, lo, hi =>
    if hi ≤ lo + 1 then lo
    else
      let mid := (lo + hi) / 2
      if mid * mid ≤ n then isqrtGo fuel n mid hi else isqrtGo fuel n lo mid

/-- Integer square root: the largest `r` with `r^2 ≤ n` (for the fuel range used). -/
def isqrt (n : Nat) : Nat := isqrtGo 200 n 0 (n + 2)

/-- Round constant `K_i`: first 32 fractional bits of the cube root of the i-th prime. -/
def shaK (p : Nat) : Nat := icbrt (p * (1 <<< 96)) % M32

/-- Initial hash word `H_i`: first 32 fractional bits of the square root of the i-th prime. -/
def shaH0 (p : Nat) : Nat := isqrt (p * (1 <<< 64)) % M32

def shaKList : List Nat := sha64Primes.map shaK

def shaInit : List Nat := (sha64Primes.take 8).map shaH0

/-- Big-endian bytes (most significant first) of `n` over `k` bytes. -/
def beBytes : Nat → Nat → List Nat
  | 0, _ => []
  | k + 1, n => (n >>> (8 * k)) % 256 :: beBytes k n

/-- SHA-256 message padding. -/
def shaPad (msg : List Nat) : List Nat :=
  let l := msg.length
  let zeros := (64 - (l + 9) % 64) % 64
  msg ++ [0x80] ++ List.replicate zeros 0 ++ beBytes 8 (8 * l)

/-- Split a byte list into 64-byte chunks. -/
def chunks64 : Nat → List Nat → List (List Nat)
  | 0, _ => []
  | _, [] => []
  | fuel + 1, bs => bs.take 64 :: chunks64 fuel (bs.drop 64)

/-- Pack bytes into big-endian 32-bit words. -/
def words32 : Nat → List Nat → List Nat
  | 0, _ => []
  | _, [] => []
  | fuel + 1, b0 :: b1 :: b2 :: b3 :: rest =>
    (((b0 * 256 + b1) * 256 + b2) * 256 + b3) :: words32 fuel rest
  | _ + 1, rest => [rest.foldl (fun a b => a * 256 + b) 0]

/-- Extend the 16 message words to 64 schedule words. -/
def extendW : Nat → List Nat → List Nat
  | 0, w => w
  | fuel + 1, w =>
    if w.length ≥ 64 then w
    else
      let i := w.length
      let nw := (smallSigma1 (w.getD (i - 2) 0) + w.getD (i - 7) 0 +
                 smallSigma0 (w.getD (i - 15) 0) + w.getD (i - 16) 0) % M32
      extendW fuel (w ++ [nw])

/-- One round of the SHA-256 compression function. -/
def shaRound (st : List Nat) (kw : Nat × Nat) : List Nat :=
  match st with
  | [a, b, c, d, e, f, g, h] =>
    let t1 := (h + bigSigma1 e + shaCh e f g + kw.1 + kw.2) % M32
    let t2 := (bigSigma0 a + shaMaj a b c) % M32
    [(t1 + t2) % M32, a, b, c, (d + t1) % M32, e, f, g]
  | other => other

/-- Compress one 64-byte block into the running hash state. -/
def shaBlock (h : List Nat) (block : List Nat) : List Nat :=
  let w := extendW 64 (words32 16 block)
  let st := (shaKList.zip w).foldl shaRound h
  (h.zip st).map fun p => (p.1 + p.2) % M32

/-- SHA-256 of a byte list, as the list of eight 32-bit hash words. -/
def sha256Words (msg : List Nat) : List Nat :=
  (chunks64 ((msg.length + 9) / 64 + 1) (shaPad msg)).foldl shaBlock shaInit

def hexDigit (n : Nat) : Char :=
  if n < 10 then Char.ofNat (48 + n) else Char.ofNat (87 + n)

/-- A 32-bit word as 8 lowercase hex characters. -/
def hex32 (n : Nat) : List Char :=
  [hexDigit ((n >>> 28) % 16), hexDigit ((n >>> 24) % 16), hexDigit ((n >>> 20) % 16),
   hexDigit ((n >>> 16) % 16), hexDigit ((n >>> 12) % 16), hexDigit ((n >>> 8) % 16),
   hexDigit ((n >>> 4) % 16), hexDigit (n % 16)]

/-- Python `hashlib.sha256(b).hexdigest()`. -/
def sha256Hex (msg : List Nat) : String :=
  ⟨(sha256Words msg).foldr (fun w acc => hex32 w ++ acc) []⟩

/-! ## A small backtracking regex engine

The redactor and the signature normalizer use a fixed set of Python regexes.
Those patterns are hand-compiled below into an AST covering exactly the
constructs they use (literals, character classes, alternation, greedy and lazy
repetition, groups, `\b`), and matched by a continuation-passing backtracking
engine with Python's leftmost / priority-order match semantics.  `re.sub`
scans the original string left to right over non-overlapping matches, so the
word-boundary context is always taken from the original text. -/

/-- One member of a character class: a single character or a range. -/
inductive ClsItem where
  | single (c : Char)
  | range (lo hi : Char)
deriving DecidableEq

/-- Regex AST (the fragment used by the worker's fixed patterns). -/
inductive RE where
  | eps
  | ch (c : Char)
  | cls (neg : Bool) (items : List ClsItem)
  | seq (a b : RE)
  | alt (a b : RE)
  | star (lazy : Bool) (r : RE)
  | group (idx : Nat) (r : RE)
  | wordB
deriving DecidableEq

/-- Python `\w` (ASCII fragment), used for `\b` boundaries. -/
def isWordChar (c : Char) : Bool :=
  (('a' ≤ c && c ≤ 'z') || ('A' ≤ c && c ≤ 'Z') || ('0' ≤ c && c ≤ '9') || c == '_')

def clsItemTest (c : Char) : ClsItem → Bool
  | .single d => c == d
  | .range lo hi => lo ≤ c && c ≤ hi

def clsTestRaw (items : List ClsItem) (c : Char) : Bool := items.any (clsItemTest c)

/-- Class membership under optional case folding (`re.IGNORECASE`). -/
def clsMatch (ci neg : Bool) (items : List ClsItem) (c : Char) : Bool :=
  let inSet := clsTestRaw items c ||
    (ci && (clsTestRaw items c.toLower || clsTestRaw items c.toUpper))
  if neg then !inSet else inSet

/-- Literal character match under optional case folding. -/
def chMatch (ci : Bool) (p c : Char) : Bool := p == c || (ci && p.toLower == c.toLower)

/-- Backtracking matcher in continuation-passing style.  `s` is the remaining
input, `prev` the character just before it (for `\b`), `caps` the captures
recorded so far (innermost first).  Priority order follows Python: left
alternative first, greedy stars consume first, lazy stars stop first.  `fuel`
decreases on every recursive call (structural recursion, so the kernel can
evaluate it); a star iteration must consume input, so the generous bound
`reFuel` below is equivalent to running without fuel. -/
def reM {α : Type} (ci : Bool) : Nat → RE → List Char → Option Char →
    List (Nat × List Char) →
    (List Char → Option Char → List (Nat × List Char) → Option α) → Option α
  | 0, _, _, _, _, _ => none
  | fuel + 1, r, s, prev, caps, k =>
    match r with
    | .eps => k s prev caps
    | .ch c =>
      match s with
      | [] => none
      | d :: rest => if chMatch ci c d then k rest (some d) caps else none
    | .cls neg items =>
      match s with
      | [] => none
      | d :: rest => if clsMatch ci neg items d then k rest (some d) caps else none
    | .seq a b =>
      reM ci fuel a s prev caps (fun s' p' c' => reM ci fuel b s' p' c' k)
    | .alt a b =>
      match reM ci fuel a s prev caps k with
      | some res => some res
      | none => reM ci fuel b s prev caps k
    | .star lz r =>
      let step := fun (kk : List Char → Option Char → List (Nat × List Char) → Option α) =>
        reM ci fuel r s prev caps (fun s' p' c' =>
          if s'.length < s.length then reM ci fuel (.star lz r) s' p' c' kk else none)
      if lz then
        match k s prev caps with
        | some res => some res
        | none => step k
      else
        match step k with
        | some res => some res
        | none => k s prev caps
    | .group i r =>
      reM ci fuel r s prev caps (fun s' p' c' =>
        k s' p' ((i, s.take (s.length - s'.length)) :: c'))
    | .wordB =>
      let before := match prev with | some c => isWordChar c | none => false
      let after := match s with | c :: _ => isWordChar c | [] => false
      if before != after then k s prev caps else none

/-- Enough fuel for any pattern of the worker on input `s`: along one
backtracking path each fuel unit is a structural descent (bounded by the
pattern's size, well under 256 for every pattern here) or a star iteration
(bounded by the input length). -/
def reFuel (s : List Char) : Nat := (s.length + 2) * 256

/-- Try to match `r` at the current position; on success return
`(matched, rest, captures)` for the highest-priority match. -/
def reFindAt (ci : Bool) (r : RE) (s : List Char) (prev : Option Char) :
    Option (List Char × List Char × List (Nat × List Char)) :=
  reM ci (reFuel s) r s prev [] (fun s' _ caps =>
    some (s.take (s.length - s'.length), s', caps))

/-- Leftmost match: scan positions left to right (Python `re.search`).
Returns `(skipped, matched, rest, captures)`. -/
def reFindGo (ci : Bool) (r : RE) :
    Nat → List Char → Option Char → List Char →
      Option (List Char × List Char × List Char × List (Nat × List Char))
  | 0, _, _, _ => none
  | fuel + 1, done, prev, s =>
    match reFindAt ci r s prev with
    | some (m, rest, caps) => some (done, m, rest, caps)
    | none =>
      match s with
      | [] => none
      | c :: cs => reFindGo ci r fuel (done ++ [c]) (some c) cs

/-- Python `re.search(r, s)`: the leftmost match, or `none` (`ci` is the
`re.IGNORECASE` flag). -/
def reFindCI (ci : Bool) (r : RE) (s : String) :
    Option (List Char × List Char × List Char × List (Nat × List Char)) :=
  reFindGo ci r (s.data.length + 1) [] none s.data

/-- `re.search` under `re.IGNORECASE`. -/
def reFind (r : RE) (s : String) :
    Option (List Char × List Char × List Char × List (Nat × List Char)) :=
  reFindCI true r s

/-- Python `re.search(r, s, re.IGNORECASE) is not None`. -/
def reSearchB (r : RE) (s : String) : Bool := (reFind r s).isSome

/-- A piece of a replacement template: literal text or a group reference `\n`. -/
inductive TPart where
  | lit (s : String)
  | grp (n : Nat)

/-- Instantiate a replacement template with the match's captures (the worker's
templates only reference groups that always participate in the match). -/
def applyT (tmpl : List TPart) (caps : List (Nat × List Char)) : List Char :=
  tmpl.foldr (fun p acc =>
    (match p with
     | .lit str => str.data
     | .grp n => ((caps.find? (fun q => q.1 == n)).map (fun q => q.2)).getD []) ++ acc) []

/-- Python `re.sub` main loop: replace all non-overlapping matches, scanning
the original string left to right; a zero-width match advances one character. -/
def pySubGo (ci : Bool) (r : RE) (tmpl : List TPart) :
    Nat → List Char → Option Char → List Char → List Char
  | 0, done, _, s => done ++ s
  | fuel + 1, done, prev, s =>
    match reFindGo ci r (s.length + 1) [] prev s with
    | none => done ++ s
    | some (skipped, m, rest, caps) =>
      let done' := done ++ skipped ++ applyT tmpl caps
      match m.getLast? with
      | some lastc => pySubGo ci r tmpl fuel done' (some lastc) rest
      | none =>
        match rest with
        | [] => done'
        | c :: cs => pySubGo ci r tmpl fuel (done' ++ [c]) (some c) cs

/-- Python `pattern.sub(replacement, s)` (`ci` is the `re.IGNORECASE` flag). -/
def pySubCI (ci : Bool) (r : RE) (tmpl : List TPart) (s : String) : String :=
  ⟨pySubGo ci r tmpl (s.data.length + 1) [] none s.data⟩

/-- `pattern.sub(replacement, s)` for an `IGNORECASE`-compiled pattern. -/
def pySub (r : RE) (tmpl : List TPart) (s : String) : String :=
  pySubCI true r tmpl s

/-! ## The redactor (`worker/redactor.py`)

`DEFAULT_PATTERNS` below is the hand-compiled AST form of the module's
default `(regex, replacement)` list; each entry's doc position in the list
matches the source order.  `Redactor._load_patterns` compiles every pattern
with `re.IGNORECASE` and `redact` applies `pattern.sub` in order. -/

def rLit (s : String) : RE := s.data.foldr (fun c acc => .seq (.ch c) acc) .eps

def rCat (l : List RE) : RE := l.foldr .seq .eps

/-- Alternation with Python's left-to-right priority. -/
def rAlts : List RE → RE
  | [] => .eps
  | [r] => r
  | r :: rest => .alt r (rAlts rest)

def rOpt (r : RE) : RE := .alt r .eps

def rPlus (r : RE) : RE := .seq r (.star false r)

def rRep : Nat → RE → RE
  | 0, _ => .eps
  | n + 1, r => .seq r (rRep n r)

/-- `r{n,}` -/
def rAtLeast (n : Nat) (r : RE) : RE := .seq (rRep n r) (.star false r)

def squote : Char := Char.ofNat 39

/-- `\s` members (ASCII). -/
def wsItems : List ClsItem :=
  [.single ' ', .single '\t', .single '\n', .single '\r',
   .single (Char.ofNat 11), .single (Char.ofNat 12)]

/-- `\d` -/
def cD : RE := .cls false [.range '0' '9']

/-- `\s` -/
def cWs : RE := .cls false wsItems

/-- `\S` -/
def cNonWs : RE := .cls true wsItems

/-- `[\s\S]` — any character. -/
def cAny : RE := .cls true []

/-- `[-.\s]` -/
def cSep : RE := .cls false ([.single '-', .single '.'] ++ wsItems)

/-- `[=:]` -/
def cEqColon : RE := .cls false [.single '=', .single ':']

/-- `["\']` -/
def cQuote : RE := .cls false [.single '"', .single squote]

/-- `[_-]` -/
def cUndDash : RE := .cls false [.single '_', .single '-']

/-- `\b[A-Za-z0-9._%+-]+@[A-Za-z0-9.-]+\.[A-Z|a-z]{2,}\b` → `[EMAIL]` -/
def reEmail : RE := rCat
  [.wordB,
   rPlus (.cls false [.range 'A' 'Z', .range 'a' 'z', .range '0' '9', .single '.',
                      .single '_', .single '%', .single '+', .single '-']),
   .ch '@',
   rPlus (.cls false [.range 'A' 'Z', .range 'a' 'z', .range '0' '9', .single '.', .single '-']),
   .ch '.',
   rAtLeast 2 (.cls false [.range 'A' 'Z', .single '|', .range 'a' 'z']),
   .wordB]

/-- `\b\d{3}[-.\s]?\d{3}[-.\s]?\d{4}\b` → `[PHONE]` -/
def rePhone1 : RE := rCat
  [.wordB, rRep 3 cD, rOpt cSep, rRep 3 cD, rOpt cSep, rRep 4 cD, .wordB]

/-- `\b\+?1?[-.\s]?\(?\d{3}\)?[-.\s]?\d{3}[-.\s]?\d{4}\b` → `[PHONE]` -/
def rePhone2 : RE := rCat
  [.wordB, rOpt (.ch '+'), rOpt (.ch '1'), rOpt cSep, rOpt (.ch '('), rRep 3 cD,
   rOpt (.ch ')'), rOpt cSep, rRep 3 cD, rOpt cSep, rRep 4 cD, .wordB]

/-- `\b\d{3}-\d{2}-\d{4}\b` → `[SSN]` -/
def reSsn : RE := rCat
  [.wordB, rRep 3 cD, .ch '-', rRep 2 cD, .ch '-', rRep 4 cD, .wordB]

/-- `\b(?:4[0-9]{12}(?:[0-9]{3})?)\b` → `[CARD]` (Visa) -/
def reVisa : RE := rCat [.wordB, .ch '4', rRep 12 cD, rOpt (rRep 3 cD), .wordB]

/-- `\b(?:5[1-5][0-9]{14})\b` → `[CARD]` (Mastercard) -/
def reMastercard : RE := rCat [.wordB, .ch '5', .cls false [.range '1' '5'], rRep 14 cD, .wordB]

/-- `\b(?:3[47][0-9]{13})\b` → `[CARD]` (Amex) -/
def reAmex : RE := rCat
  [.wordB, .ch '3', .cls false [.single '4', .single '7'], rRep 13 cD, .wordB]

/-- `\b(?:6(?:011|5[0-9]{2})[0-9]{12})\b` → `[CARD]` (Discover) -/
def reDiscover : RE := rCat
  [.wordB, .ch '6', .alt (rLit "011") (rCat [.ch '5', rRep 2 cD]), rRep 12 cD, .wordB]

/-- `(api[_-]?key|apikey)\s*[=:]\s*["\']?([a-zA-Z0-9_\-]{20,})["\']?` → `\1=[REDACTED_KEY]` -/
def reApiKey : RE := rCat
  [.group 1 (rAlts [rCat [rLit "api", rOpt cUndDash, rLit "key"], rLit "apikey"]),
   .star false cWs, cEqColon, .star false cWs, rOpt cQuote,
   .group 2 (rAtLeast 20 (.cls false [.range 'a' 'z', .range 'A' 'Z', .range '0' '9',
                                      .single '_', .single '-'])),
   rOpt cQuote]

/-- `(secret[_-]?key|secretkey)\s*[=:]\s*["\']?([a-zA-Z0-9_\-]{20,})["\']?` → `\1=[REDACTED_SECRET]` -/
def reSecretKey : RE := rCat
  [.group 1 (rAlts [rCat [rLit "secret", rOpt cUndDash, rLit "key"], rLit "secretkey"]),
   .star false cWs, cEqColon, .star false cWs, rOpt cQuote,
   .group 2 (rAtLeast 20 (.cls false [.range 'a' 'z', .range 'A' 'Z', .range '0' '9',
                                      .single '_', .single '-'])),
   rOpt cQuote]

/-- `(access[_-]?token|accesstoken)\s*[=:]\s*["\']?([a-zA-Z0-9_\-\.]{20,})["\']?` → `\1=[REDACTED_TOKEN]` -/
def reAccessToken : RE := rCat
  [.group 1 (rAlts [rCat [rLit "access", rOpt cUndDash, rLit "token"], rLit "accesstoken"]),
   .star false cWs, cEqColon, .star false cWs, rOpt cQuote,
   .group 2 (rAtLeast 20 (.cls false [.range 'a' 'z', .range 'A' 'Z', .range '0' '9',
                                      .single '_', .single '-', .single '.'])),
   rOpt cQuote]

/-- `(password|passwd|pwd)\s*[=:]\s*["\']?(\S+)["\']?` → `\1=[REDACTED_PASSWORD]` -/
def rePassword : RE := rCat
  [.group 1 (rAlts [rLit "password", rLit "passwd", rLit "pwd"]),
   .star false cWs, cEqColon, .star false cWs, rOpt cQuote,
   .group 2 (rPlus cNonWs),
   rOpt cQuote]

/-- `bearer\s+[a-zA-Z0-9\-_]+\.[a-zA-Z0-9\-_]+\.[a-zA-Z0-9\-_]+` → `[REDACTED_JWT]` -/
def reBearer : RE :=
  let seg := rPlus (.cls false [.range 'a' 'z', .range 'A' 'Z', .range '0' '9',
                               .single '-', .single '_'])
  rCat [rLit "bearer", rPlus cWs, seg, .ch '.', seg, .ch '.', seg]

/-- `(aws[_-]?access[_-]?key[_-]?id)\s*[=:]\s*["\']?([A-Z0-9]{20})["\']?` → `\1=[REDACTED_AWS_KEY]` -/
def reAwsKey : RE := rCat
  [.group 1 (rCat [rLit "aws", rOpt cUndDash, rLit "access", rOpt cUndDash,
                   rLit "key", rOpt cUndDash, rLit "id"]),
   .star false cWs, cEqColon, .star false cWs, rOpt cQuote,
   .group 2 (rRep 20 (.cls false [.range 'A' 'Z', .range '0' '9'])),
   rOpt cQuote]

/-- `(aws[_-]?secret[_-]?access[_-]?key)\s*[=:]\s*["\']?([a-zA-Z0-9/+=]{40})["\']?` → `\1=[REDACTED_AWS_SECRET]` -/
def reAwsSecret : RE := rCat
  [.group 1 (rCat [rLit "aws", rOpt cUndDash, rLit "secret", rOpt cUndDash,
                   rLit "access", rOpt cUndDash, rLit "key"]),
   .star false cWs, cEqColon, .star false cWs, rOpt cQuote,
   .group 2 (rRep 40 (.cls false [.range 'a' 'z', .range 'A' 'Z', .range '0' '9',
                                  .single '/', .single '+', .single '='])),
   rOpt cQuote]

/-- `-----BEGIN (?:RSA |EC |DSA )?PRIVATE KEY-----[\s\S]*?-----END (?:RSA |EC |DSA )?PRIVATE KEY-----`
→ `[REDACTED_PRIVATE_KEY]` -/
def rePem : RE :=
  let kind := rOpt (rAlts [rLit "RSA ", rLit "EC ", rLit "DSA "])
  rCat [rLit "-----BEGIN ", kind, rLit "PRIVATE KEY-----",
        .star true cAny,
        rLit "-----END ", kind, rLit "PRIVATE KEY-----"]

/-- `(mysql|postgresql|postgres|mongodb|redis|amqp)://[^:]+:([^@]+)@`
→ `\1://[user]:[REDACTED_PASSWORD]@` -/
def reConnString : RE := rCat
  [.group 1 (rAlts [rLit "mysql", rLit "postgresql", rLit "postgres",
                    rLit "mongodb", rLit "redis", rLit "amqp"]),
   rLit "://",
   rPlus (.cls true [.single ':']),
   .ch ':',
   .group 2 (rPlus (.cls true [.single '@'])),
   .ch '@']

/-- `(secret|token|credential|auth)\s*[=:]\s*["\']?([a-zA-Z0-9_\-\.]{16,})["\']?` → `\1=[REDACTED]` -/
def reGenericSecret : RE := rCat
  [.group 1 (rAlts [rLit "secret", rLit "token", rLit "credential", rLit "auth"]),
   .star false cWs, cEqColon, .star false cWs, rOpt cQuote,
   .group 2 (rAtLeast 16 (.cls false [.range 'a' 'z', .range 'A' 'Z', .range '0' '9',
                                      .single '_', .single '-', .single '.'])),
   rOpt cQuote]

/-- `redactor.DEFAULT_PATTERNS`, in source order, with replacement templates. -/
def DEFAULT_PATTERNS : List (RE × List TPart) :=
  [(reEmail, [.lit "[EMAIL]"]),
   (rePhone1, [.lit "[PHONE]"]),
   (rePhone2, [.lit "[PHONE]"]),
   (reSsn, [.lit "[SSN]"]),
   (reVisa, [.lit "[CARD]"]),
   (reMastercard, [.lit "[CARD]"]),
   (reAmex, [.lit "[CARD]"]),
   (reDiscover, [.lit "[CARD]"]),
   (reApiKey, [.grp 1, .lit "=[REDACTED_KEY]"]),
   (reSecretKey, [.grp 1, .lit "=[REDACTED_SECRET]"]),
   (reAccessToken, [.grp 1, .lit "=[REDACTED_TOKEN]"]),
   (rePassword, [.grp 1, .lit "=[REDACTED_PASSWORD]"]),
   (reBearer, [.lit "[REDACTED_JWT]"]),
   (reAwsKey, [.grp 1, .lit "=[REDACTED_AWS_KEY]"]),
   (reAwsSecret, [.grp 1, .lit "=[REDACTED_AWS_SECRET]"]),
   (rePem, [.lit "[REDACTED_PRIVATE_KEY]"]),
   (reConnString, [.grp 1, .lit "://[user]:[REDACTED_PASSWORD]@"]),
   (reGenericSecret, [.grp 1, .lit "=[REDACTED]"])]

/-- `Redactor.redact`: apply every default pattern's substitution in order
(no extra environment-configured patterns; empty input is returned as is). -/
def redact (text : String) : String :=
  if text.isEmpty then text
  else DEFAULT_PATTERNS.foldl (fun acc pr => pySub pr.1 pr.2 acc) text

/-! ## Fingerprint v2 (`worker/fingerprint.py`) -/

/-- Python truthiness-based `a or b` over optional strings (`None` and `""` are falsy). -/
def pyOrOpt (a b : Option String) : Option String :=
  match a with
  | some v => if v = "" then b else some v
  | none => b

/-- The fields of an event dictionary read by `compute_fingerprint_v2`
(`severity` is carried to state the severity-exclusion property). -/
structure FpEvent where
  environment : Option String := none
  host : Option String := none
  check_name : Option String := none
  service : Option String := none
  severity : Option String := none
  normalized_signature : String := ""
deriving DecidableEq

/-- `fingerprint._normalize_component`. -/
def _normalize_component (value : Option String) : String :=
  match value with
  | none => ""
  | some v => if v = "" then "" else pyStrip (pyLower v)

/-- `fingerprint._normalize_signature_component`. -/
def _normalize_signature_component (signature : String) : String :=
  if signature = "" then "" else pyLower (pyTake 200 signature)

/-- `fingerprint.compute_fingerprint_v2`. -/
def compute_fingerprint_v2 (event : FpEvent) : String :=
  let components := [_normalize_component event.environment,
                     _normalize_component event.host,
                     _normalize_component (pyOrOpt event.check_name event.service),
                     _normalize_signature_component event.normalized_signature]
  pyTake 16 (sha256Hex (utf8Encode (String.intercalate "|" components)))

/-- The claim's formula, following its words exactly:
`SHA256(lower(env) | lower(host) | lower(check_name or service) |
lower(normalized_signature)[:200])` truncated to 16 hex characters (no
stripping of surrounding whitespace). -/
def fingerprintV2SpecClaim (event : FpEvent) : String :=
  pyTake 16 (sha256Hex (utf8Encode (String.intercalate "|"
    [pyLower (event.environment.getD ""),
     pyLower (event.host.getD ""),
     pyLower ((pyOrOpt event.check_name event.service).getD ""),
     pyTake 200 (pyLower event.normalized_signature)])))

/-- The amended formula: each of the first three components is additionally
stripped of surrounding whitespace, as the code does. -/
def fingerprintV2SpecAmended (event : FpEvent) : String :=
  pyTake 16 (sha256Hex (utf8Encode (String.intercalate "|"
    [pyStrip (pyLower (event.environment.getD "")),
     pyStrip (pyLower (event.host.getD "")),
     pyStrip (pyLower ((pyOrOpt event.check_name event.service).getD "")),
     pyTake 200 (pyLower event.normalized_signature)])))

/-! ## Correlator (`worker/correlator.py`)

Database tables become lists of rows, the per-event transaction becomes a pure
state transformer, `NOW()` becomes an explicit `now : Int` in minutes, and the
two SQL `UPDATE`s of `_update_incident` (the flap-count increment and the main
update) are composed in source order.  Columns the `INSERT` omits take the
migrations' defaults (`flap_count = 0`, nullable columns `NULL`); the
migration DDL is not part of the sources, but those defaults are fixed by the
spec's data model (`event_count = 1`, fresh incidents un-flapped). -/

/-- `SEVERITY_ORDER = ["info", "low", "medium", "high", "critical"]`. -/
inductive Severity where
  | info | low | medium | high | critical
deriving DecidableEq

/-- `SEVERITY_ORDER.index`. -/
def sevIdx : Severity → Nat
  | .info => 0 | .low => 1 | .medium => 2 | .high => 3 | .critical => 4

def severityStr : Severity → String
  | .info => "info" | .low => "low" | .medium => "medium"
  | .high => "high" | .critical => "critical"

inductive EvState where
  | firing | resolved | unknown
deriving DecidableEq

/-- Incident status strings (`open`, `acknowledged`, `resolving`, `resolved`,
`suppressed`); `open'` stands for the string `"open"`. -/
inductive IncStatus where
  | open' | acknowledged | resolving | resolved | suppressed
deriving DecidableEq

/-- `schemas.ResolutionReason`. -/
inductive RReason where
  | explicit_clear | quiet_period | manual | maintenance | stale
deriving DecidableEq

/-- The worker settings the correlator and scheduler read (source defaults). -/
structure WSettings where
  dedupe_window_minutes : Int := 10
  flap_quiet_time_minutes : Int := 30
  incident_auto_resolve_hours : Int := 24
deriving DecidableEq

/-- The event dictionary handed to `Correlator.process_event`; absent keys are
`none` (`event.get(...)` defaults are applied at each use site, as in the
source). -/
structure CEvent where
  fingerprint : Option String := none
  fingerprint_v2 : Option String := none
  severity : Option Severity := none
  state : Option EvState := none
  occurred_at : Option Int := none
  host : Option String := none
  check_name : Option String := none
  service : Option String := none
  environment : Option String := none
  region : Option String := none
  source_tool : Option String := none
  tags : List String := []
deriving DecidableEq

/-- A row of `alert_events` (the columns the correlator reads back). -/
structure EventRow where
  id : Nat
  severity : Severity
  state : EvState
  occurred_at : Int
  fingerprint : Option String
  fingerprint_v2 : Option String
deriving DecidableEq

/-- A row of `incidents`. -/
structure IncidentRow where
  id : Nat
  fingerprint : Option String := none
  fingerprint_v2 : Option String := none
  title : String := ""
  severity : Severity := .medium
  severity_current : Option Severity := none
  severity_max : Option Severity := none
  last_state : Option EvState := none
  status : IncStatus := .open'
  first_seen_at : Int := 0
  last_seen_at : Int := 0
  event_count : Nat := 1
  flap_count : Nat := 0
  last_state_change_at : Option Int := none
  resolved_at : Option Int := none
  resolution_reason : Option RReason := none
  host : Option String := none
  check_name : Option String := none
  service : Option String := none
  environment : Option String := none
  region : Option String := none
  source_tool : Option String := none
  tags : List String := []
  is_in_maintenance : Bool := false
  maintenance_window_id : Option Nat := none
deriving DecidableEq

/-- A row of `incident_events`. -/
structure LinkRow where
  incident_id : Nat
  alert_event_id : Nat
  is_deduplicated : Bool
deriving DecidableEq

/-- The maintenance-window scope record (`§4.5`), as stored JSON. -/
structure MScope where
  hosts : List String := []
  host_regex : Option String := none
  services : List String := []
  service_regex : Option String := none
  environments : List String := []
  regions : List String := []
  tags : List String := []
deriving DecidableEq

/-- A row of `maintenance_windows` (the columns the matcher reads). -/
structure MWindow where
  id : Nat
  is_active : Bool := true
  start_ts : Int := 0
  end_ts : Int := 0
  scope : MScope := {}
deriving DecidableEq

/-- The store state threaded through the correlator, maintenance engine and
scheduler. -/
structure CStore where
  incidents : List IncidentRow := []
  events : List EventRow := []
  links : List LinkRow := []
  windows : List MWindow := []
  maint_matches : List (Nat × Nat) := []
  nextEventId : Nat := 0
  nextIncidentId : Nat := 100
deriving DecidableEq

/-- `status IN ('open', 'acknowledged', 'resolving')`. -/
def openish (s : IncStatus) : Bool :=
  s == .open' || s == .acknowledged || s == .resolving

/-- Python truthiness of an optional string. -/
def truthy : Option String → Bool
  | some s => s ≠ ""
  | none => false

/-- `Correlator._store_event` (the `INSERT INTO alert_events`). -/
def _store_event (now : Int) (ev : CEvent) (st : CStore) : Nat × CStore :=
  let row : EventRow :=
    { id := st.nextEventId,
      severity := ev.severity.getD .medium,
      state := ev.state.getD .firing,
      occurred_at := ev.occurred_at.getD now,
      fingerprint := ev.fingerprint,
      fingerprint_v2 := ev.fingerprint_v2 }
  (st.nextEventId, { st with events := st.events ++ [row], nextEventId := st.nextEventId + 1 })

/-- The `SELECT ... FOR UPDATE` of `process_event`: the open-ish incident with
matching `fingerprint_v2`, falling back to the legacy `fingerprint` only when
the event's `fingerprint_v2` is falsy (absent or empty, Python truthiness). -/
def findOpenIncident (ev : CEvent) (st : CStore) : Option IncidentRow :=
  if truthy ev.fingerprint_v2 then
    st.incidents.find? (fun i => i.fingerprint_v2 == ev.fingerprint_v2 && openish i.status)
  else
    st.incidents.find? (fun i =>
      (ev.fingerprint.isSome && i.fingerprint == ev.fingerprint) && openish i.status)

/-- `Correlator._is_duplicate`: any event of the same state linked to the
incident within the last `dedupe_window_minutes`. -/
def _is_duplicate (cfg : WSettings) (now : Int) (incident_id : Nat) (ev : CEvent)
    (st : CStore) : Bool :=
  st.events.any fun ae =>
    st.links.any (fun l => l.incident_id == incident_id && l.alert_event_id == ae.id) &&
    ae.occurred_at > now - cfg.dedupe_window_minutes &&
    ae.state == ev.state.getD .firing

/-- The `MAX(occurred_at)` of the firing events linked to the incident
(the quiet-period query inside `_update_incident`). -/
def lastFiringTime (incident_id : Nat) (st : CStore) : Option Int :=
  st.events.foldl (fun acc ae =>
    if st.links.any (fun l => l.incident_id == incident_id && l.alert_event_id == ae.id) &&
       ae.state == EvState.firing then
      match acc with
      | none => some ae.occurred_at
      | some m => some (max m ae.occurred_at)
    else acc) none

/-- The outcome of `_update_incident`'s in-Python computation: new severities,
the state-machine result, and whether the flap counter was bumped. -/
structure UpdDecision where
  severity_current : Severity
  severity_max : Severity
  escalated : Bool
  new_state : EvState
  status : IncStatus
  resolution_reason : Option RReason
  flap_inc : Bool
deriving DecidableEq

/-- The decision logic of `Correlator._update_incident` (severity tracking and
the explicit state machine), with the quiet-period query result passed in. -/
def _update_incident_decide (cfg : WSettings) (now : Int) (incident : IncidentRow)
    (ev : CEvent) (last_firing : Option Int) : UpdDecision :=
  let max_severity := incident.severity_max.getD incident.severity
  let new_severity := ev.severity.getD .medium
  let sevPair :=
    if sevIdx new_severity > sevIdx max_severity then (new_severity, true)
    else (max_severity, false)
  let new_state := ev.state.getD .firing
  let stTriple :=
    if new_state = .resolved then
      if incident.status = .open' ∨ incident.status = .acknowledged then
        (IncStatus.resolving, (none : Option RReason), false)
      else if incident.status = .resolving then
        match last_firing with
        | some lf =>
          if now - lf > cfg.flap_quiet_time_minutes then
            (IncStatus.resolved, some RReason.explicit_clear, false)
          else (incident.status, none, false)
        | none => (incident.status, none, false)
      else (incident.status, none, false)
    else if new_state = .firing then
      if incident.status = .resolved ∨ incident.status = .resolving then
        (IncStatus.open', (none : Option RReason), true)
      else (incident.status, none, false)
    else (incident.status, none, false)
  { severity_current := new_severity,
    severity_max := sevPair.1,
    escalated := sevPair.2,
    new_state := new_state,
    status := stTriple.1,
    resolution_reason := stTriple.2.1,
    flap_inc := stTriple.2.2 }

/-- Apply `_update_incident`'s SQL writes to one incident row: the flap-count
`UPDATE` (when the reopen branch ran) followed by the main `UPDATE`. -/
def applyUpdate (d : UpdDecision) (now occ : Int) (row : IncidentRow) : IncidentRow :=
  let row := if d.flap_inc then { row with flap_count := row.flap_count + 1 } else row
  { row with
    severity := d.severity_current,
    severity_current := some d.severity_current,
    severity_max := some d.severity_max,
    last_state := some d.new_state,
    status := d.status,
    last_seen_at := occ,
    event_count := row.event_count + 1,
    last_state_change_at :=
      if row.status ≠ d.status then some now else row.last_state_change_at,
    resolved_at := if d.status = .resolved then some now else row.resolved_at,
    resolution_reason :=
      if d.status = .resolved then d.resolution_reason else row.resolution_reason }

/-- `Correlator._update_incident`. -/
def _update_incident (cfg : WSettings) (now : Int) (incident : IncidentRow) (ev : CEvent)
    (st : CStore) : Nat × CStore :=
  let d := _update_incident_decide cfg now incident ev (lastFiringTime incident.id st)
  let occ := ev.occurred_at.getD now
  (incident.id,
   { st with incidents := st.incidents.map fun i =>
       if i.id == incident.id then applyUpdate d now occ i else i })

/-- `Correlator._generate_title`. -/
def _generate_title (ev : CEvent) : String :=
  let parts : List String :=
    (match ev.severity with
     | some s => ["[" ++ pyUpper (severityStr s) ++ "]"]
     | none => []) ++
    (if truthy ev.host then [ev.host.getD ""] else []) ++
    (if truthy ev.check_name then [ev.check_name.getD ""]
     else if truthy ev.service then [ev.service.getD ""] else [])
  let parts := if parts.isEmpty then ["Alert"] else parts
  let parts := parts ++ (if truthy ev.source_tool then ["(" ++ ev.source_tool.getD "" ++ ")"] else [])
  pyTake 500 (String.intercalate " " parts)

/-- The row built by `Correlator._create_incident`'s `INSERT`. -/
def _create_incident_row (now : Int) (ev : CEvent) (newId : Nat) : IncidentRow :=
  let initial_severity := ev.severity.getD .medium
  let occ := ev.occurred_at.getD now
  { id := newId,
    fingerprint := ev.fingerprint,
    fingerprint_v2 := ev.fingerprint_v2,
    title := _generate_title ev,
    source_tool := ev.source_tool,
    environment := ev.environment,
    region := ev.region,
    host := ev.host,
    check_name := ev.check_name,
    service := ev.service,
    severity := initial_severity,
    severity_current := some initial_severity,
    severity_max := some initial_severity,
    last_state := some (ev.state.getD .firing),
    status := .open',
    first_seen_at := occ,
    last_seen_at := occ,
    event_count := 1,
    flap_count := 0,
    tags := ev.tags }

/-- `Correlator._create_incident`. -/
def _create_incident (now : Int) (ev : CEvent) (st : CStore) : Nat × CStore :=
  let row := _create_incident_row now ev st.nextIncidentId
  (row.id, { st with incidents := st.incidents ++ [row], nextIncidentId := st.nextIncidentId + 1 })

/-- `Correlator._link_event` (`INSERT ... ON CONFLICT DO NOTHING`). -/
def _link_event (incident_id event_id : Nat) (is_dedupe : Bool) (st : CStore) : CStore :=
  if st.links.any (fun l => l.incident_id == incident_id && l.alert_event_id == event_id) then st
  else { st with links := st.links ++
          [{ incident_id := incident_id, alert_event_id := event_id, is_deduplicated := is_dedupe }] }

/-- `Correlator._find_recent_incident`: the most recently resolved incident
with the same legacy `fingerprint`, resolved within the last hour.  A `NULL`
fingerprint matches no row (SQL `=` semantics). -/
def _find_recent_incident (now : Int) (fingerprint : Option String) (st : CStore) :
    Option IncidentRow :=
  match fingerprint with
  | none => none
  | some f =>
    (st.incidents.filter fun i =>
        i.fingerprint == some f && i.status == IncStatus.resolved &&
        (match i.resolved_at with | some t => t > now - 60 | none => false)).foldl
      (fun acc i =>
        match acc with
        | none => some i
        | some j => if i.resolved_at.getD 0 > j.resolved_at.getD 0 then some i else some j)
      none

/-- `Correlator.process_event`: one correlate-and-write transaction. -/
def process_event (cfg : WSettings) (now : Int) (ev : CEvent) (st : CStore) :
    Option Nat × CStore :=
  if ¬truthy ev.fingerprint_v2 ∧ ¬truthy ev.fingerprint then (none, st)
  else
    let event_id := (_store_event now ev st).1
    let st1 := (_store_event now ev st).2
    match findOpenIncident ev st1 with
    | some existing =>
      let is_dedupe := _is_duplicate cfg now existing.id ev st1
      let upd := _update_incident cfg now existing ev st1
      (some upd.1, _link_event upd.1 event_id is_dedupe upd.2)
    | none =>
      if ev.state = some EvState.resolved then
        match _find_recent_incident now ev.fingerprint st1 with
        | some recent => (some recent.id, _link_event recent.id event_id false st1)
        | none =>
          let cr := _create_incident now ev st1
          (some cr.1, _link_event cr.1 event_id false cr.2)
      else
        let cr := _create_incident now ev st1
        (some cr.1, _link_event cr.1 event_id false cr.2)

/-- The per-row effect of `auto_resolve_stale_incidents`' `UPDATE`. -/
def auto_resolve_row (cfg : WSettings) (now : Int) (i : IncidentRow) : IncidentRow :=
  if openish i.status && i.last_seen_at < now - 60 * cfg.incident_auto_resolve_hours then
    { i with status := .resolved, resolved_at := some now, resolution_reason := some .stale }
  else i

/-- `Correlator.auto_resolve_stale_incidents`. -/
def auto_resolve_stale_incidents (cfg : WSettings) (now : Int) (st : CStore) : CStore :=
  { st with incidents := st.incidents.map (auto_resolve_row cfg now) }

/-! ## Maintenance engine (`worker/maintenance_engine.py`)

`_matches_scope` calls `re.match(pattern, value, re.IGNORECASE)` on runtime
pattern strings; that engine is abstracted as a parameter
`rmatch : String → String → Bool` (pattern, value ↦ anchored case-insensitive
match), since the patterns are data, not source text. -/

/-- One value-list/regex dimension of `MaintenanceEngine._matches_scope`
(the hosts and services blocks share this shape). -/
def scopeDimCheck (rmatch : String → String → Bool) (vals : List String)
    (rx : Option String) (fieldVal : String) : Bool :=
  if !vals.isEmpty && fieldVal ≠ "" then
    if vals.contains fieldVal then true
    else if truthy rx then rmatch (rx.getD "") fieldVal
    else false
  else if truthy rx && fieldVal ≠ "" then rmatch (rx.getD "") fieldVal
  else true

/-- `MaintenanceEngine._matches_scope`. -/
def _matches_scope (rmatch : String → String → Bool) (incident : IncidentRow)
    (scope : MScope) : Bool :=
  let incident_host := incident.host.getD ""
  let incident_service := (pyOrOpt incident.service incident.check_name).getD ""
  scopeDimCheck rmatch scope.hosts scope.host_regex incident_host &&
  scopeDimCheck rmatch scope.services scope.service_regex incident_service &&
  (if !scope.environments.isEmpty && truthy incident.environment then
     scope.environments.contains (incident.environment.getD "")
   else true) &&
  (if !scope.regions.isEmpty && truthy incident.region then
     scope.regions.contains (incident.region.getD "")
   else true) &&
  (if !scope.tags.isEmpty then scope.tags.any (fun t => incident.tags.contains t)
   else true)

/-- `MaintenanceEngine.match_incidents_to_maintenance`: for each snapshot
incident in {open, acknowledged} not yet in maintenance and each active
window, on scope match insert the (window, incident) match row
(`ON CONFLICT DO NOTHING`) and set the incident's maintenance flag and
window reference (the loop does not break, so the last matching window wins). -/
def match_incidents_to_maintenance (rmatch : String → String → Bool) (now : Int)
    (st : CStore) : CStore :=
  let activeW := st.windows.filter fun w => w.is_active && w.start_ts ≤ now && now ≤ w.end_ts
  if activeW.isEmpty then st
  else
    let snapshot := st.incidents.filter fun i =>
      (i.status == .open' || i.status == .acknowledged) && !i.is_in_maintenance
    snapshot.foldl (fun acc i =>
      activeW.foldl (fun acc2 w =>
        if _matches_scope rmatch i w.scope then
          let acc3 :=
            if acc2.maint_matches.contains (w.id, i.id) then acc2
            else { acc2 with maint_matches := acc2.maint_matches ++ [(w.id, i.id)] }
          { acc3 with incidents := acc3.incidents.map fun j =>
              if j.id == i.id then
                { j with is_in_maintenance := true, maintenance_window_id := some w.id }
              else j }
        else acc2) acc) st

/-- `MaintenanceEngine.clear_expired_maintenance`: clear the flag and the
reference on incidents whose referenced window is no longer active and
current. -/
def clear_expired_maintenance (now : Int) (st : CStore) : CStore :=
  { st with incidents := st.incidents.map fun i =>
      if i.is_in_maintenance &&
         !(match i.maintenance_window_id with
           | some wid => st.windows.any fun w =>
               w.id == wid && w.is_active && w.start_ts ≤ now && now ≤ w.end_ts
           | none => false) then
        { i with is_in_maintenance := false, maintenance_window_id := none }
      else i }

/-! ## Scheduler (`worker/scheduler.py`) -/

/-- `Scheduler._run_periodic_tasks` with no RAG client configured: one cycle
runs auto-resolve, then the maintenance match pass, then the maintenance clear
pass (each `_safe_run`-wrapped; the pure model raises nothing). -/
def _run_periodic_tasks (rmatch : String → String → Bool) (cfg : WSettings) (now : Int)
    (st : CStore) : CStore :=
  clear_expired_maintenance now
    (match_incidents_to_maintenance rmatch now
      (auto_resolve_stale_incidents cfg now st))

/-- One value-list/regex dimension of the amended scope-matching claim: the
dimension passes iff the incident's field is empty, or the dimension is
entirely unconstrained, or the field is one of the listed values
(case-sensitively), or the regex is present (and non-empty) and matches. -/
def scopeDimSpec (rmatch : String → String → Bool) (vals : List String)
    (rx : Option String) (fieldVal : String) : Bool :=
  fieldVal == "" || (vals.isEmpty && !truthy rx) || vals.contains fieldVal ||
  (truthy rx && rmatch (rx.getD "") fieldVal)

/-- An exact-value dimension (environments / regions) of the amended claim:
passes iff unconstrained, or the incident's field is empty, or listed. -/
def scopeExactSpec (vals : List String) (fieldVal : Option String) : Bool :=
  vals.isEmpty || !truthy fieldVal || vals.contains (fieldVal.getD "")

/-- The tags dimension of the amended claim: passes iff unconstrained or some
scope tag occurs among the incident's tags. -/
def scopeTagsSpec (scopeTags incidentTags : List String) : Bool :=
  scopeTags.isEmpty || scopeTags.any (fun t => incidentTags.contains t)

/-- The amended scope-matching characterization, per dimension. -/
def matchesScopeSpec (rmatch : String → String → Bool) (incident : IncidentRow)
    (scope : MScope) : Bool :=
  scopeDimSpec rmatch scope.hosts scope.host_regex (incident.host.getD "") &&
  scopeDimSpec rmatch scope.services scope.service_regex
    ((pyOrOpt incident.service incident.check_name).getD "") &&
  scopeExactSpec scope.environments incident.environment &&
  scopeExactSpec scope.regions incident.region &&
  scopeTagsSpec scope.tags incident.tags

/-! ## Idempotency (`worker/idempotency.py`)

Result blobs: Python serializes the operation's return value with
`json.dumps` and deserializes with `json.loads`; the value type, serializer
and deserializer are parameters (`J`, `enc`, `dec`).  The operation itself is
modelled by its outcome: a returned optional value or a raised exception. -/

inductive IdemStatus where
  | processing | completed | failed
deriving DecidableEq

/-- A row of `idempotency_keys`. -/
structure IdemRow where
  status : IdemStatus
  result : Option String := none
  expires_at : Int := 0
deriving DecidableEq

/-- The `idempotency_keys` table (`key` unique). -/
abbrev IdemStore := List (String × IdemRow)

/-- `SELECT ... WHERE key = $1` (the key is unique). -/
def idemLookup (key : String) : IdemStore → Option IdemRow
  | [] => none
  | p :: tl => if p.1 == key then some p.2 else idemLookup key tl

/-- `INSERT ... ON CONFLICT (key) DO NOTHING`. -/
def idemInsertIfAbsent (key : String) (row : IdemRow) (st : IdemStore) : IdemStore :=
  if (idemLookup key st).isSome then st else st ++ [(key, row)]

/-- `UPDATE idempotency_keys SET ... WHERE key = $1`. -/
def idemSet (key : String) (f : IdemRow → IdemRow) (st : IdemStore) : IdemStore :=
  st.map (fun p => if p.1 == key then (p.1, f p.2) else p)

/-- What a call to `with_idempotency` produced: the value returned (or the
exception propagated), the store afterwards, and whether the wrapped
operation was executed. -/
structure IdemOutcome (J : Type) where
  result : Except Unit (Option J)
  store : IdemStore
  opRan : Bool

/-- `idempotency.with_idempotency`: insert the key as `processing` if absent;
re-read it; if it is `completed` with a truthy (non-null, non-empty) result
blob, return the deserialized blob without running the operation; otherwise
run the operation and mark the key `completed` (serialized result) on success
or `failed` (exception re-raised) on failure. -/
def with_idempotency {J : Type} (enc : J → String) (dec : String → J) (key : String)
    (ttl_hours now : Int) (op : Except Unit (Option J)) (st : IdemStore) : IdemOutcome J :=
  let st1 := idemInsertIfAbsent key
    { status := .processing, result := none, expires_at := now + 60 * ttl_hours } st
  let cachedBlob : Option String :=
    match idemLookup key st1 with
    | some row =>
      if row.status = .completed then
        match row.result with
        | some b => if b = "" then none else some b
        | none => none
      else none
    | none => none
  match cachedBlob with
  | some b => { result := .ok (some (dec b)), store := st1, opRan := false }
  | none =>
    match op with
    | .ok v =>
      { result := .ok v,
        store := idemSet key (fun r => { r with status := .completed, result := v.map enc }) st1,
        opRan := true }
    | .error e =>
      { result := .error e,
        store := idemSet key (fun r => { r with status := .failed }) st1,
        opRan := true }

/-- What `check_idempotency` reports for a key. -/
inductive CheckResult (J : Type) where
  | cached (v : Option J)
  | processingSentinel
  | noResult
deriving DecidableEq

/-- `idempotency.check_idempotency`: unexpired `completed` keys yield the
cached blob (a falsy blob yields `None`, indistinguishable from a miss);
unexpired `processing` keys yield the `{"_status": "processing"}` skip
sentinel; anything else yields `None`. -/
def check_idempotency {J : Type} (dec : String → J) (key : String) (now : Int)
    (st : IdemStore) : CheckResult J :=
  match idemLookup key st with
  | some row =>
    if row.expires_at > now then
      if row.status = .completed then
        match row.result with
        | some b => if b = "" then .noResult else .cached (some (dec b))
        | none => .noResult
      else if row.status = .processing then .processingSentinel
      else .noResult
    else .noResult
  | none => .noResult

/-! ## Learning parser (`worker/llm_parser.py` with `worker/schemas.py`)

Confidences are Python floats whose values in the source are all exact
hundredths; they are modelled as integers scaled by 100 (so `0.75` is `75`).
The LLM collaborator is modelled by its parsed response (`Option LlmResult`),
and the Python `re` calls on runtime rule patterns by an abstract engine
`RxEngine`; the fixed signature-normalization patterns are compiled ASTs. -/

/-- `schemas.CONFIDENCE_THRESHOLD = 0.75`, scaled by 100. -/
def CONFIDENCE_THRESHOLD : Int := 75

/-- `schemas.QUARANTINE_THRESHOLD = 0.4`, scaled by 100. -/
def QUARANTINE_THRESHOLD : Int := 40

/-- `@([\w.-]+)` — the from-domain pattern of `compute_signature`. -/
def reAtDomain : RE :=
  .seq (.ch '@') (.group 1 (rPlus (.cls false
    [.range 'a' 'z', .range 'A' 'Z', .range '0' '9', .single '_', .single '.', .single '-'])))

/-- `\[\d+\]` — bracketed number, normalized to `[*]`. -/
def reBracketNum : RE := rCat [.ch '[', rPlus cD, .ch ']']

/-- `\d{4}-\d{2}-\d{2}` — ISO date, normalized to `*DATE*`. -/
def reIsoDate : RE := rCat [rRep 4 cD, .ch '-', rRep 2 cD, .ch '-', rRep 2 cD]

/-- `\d+` — digit run, normalized to `*N*`. -/
def reDigits : RE := rPlus cD

/-- The fixed body-marker vocabulary of `compute_signature`, in check order. -/
def MARKERS : List String :=
  ["severity", "status", "alert", "host:", "service:", "critical", "warning",
   "problem", "recovery", "impact", "duration", "opened", "closed"]

/-- Python `needle in hay` on strings. -/
def containsSub (needle : List Char) : List Char → Bool
  | [] => needle.isPrefixOf ([] : List Char)
  | c :: rest => needle.isPrefixOf (c :: rest) || containsSub needle rest

def pyIn (needle hay : String) : Bool := containsSub needle.data hay.data

def insertSorted (x : String) : List String → List String
  | [] => [x]
  | y :: ys => if x ≤ y then x :: y :: ys else y :: insertSorted x ys

/-- Python `sorted` on strings. -/
def sortStrings (l : List String) : List String := l.foldr insertSorted []

/-- The signature components dictionary of `compute_signature`. -/
structure SigComponents where
  from_domain : String
  subject_pref : String
  body_markers : List String
deriving DecidableEq

/-- `LLMParser.compute_signature`: from-domain, normalized subject prefix
(first 50 characters), present body markers; the hash string joins the
markers in check order while the components dictionary stores them sorted. -/
def compute_signature (subject from_address body : String) : String × SigComponents :=
  let from_domain :=
    if from_address ≠ "" then
      match reFindCI false reAtDomain from_address with
      | some (_, _, _, caps) =>
        pyLower ⟨(((caps.find? (fun q => q.1 == 1)).map (fun q => q.2)).getD [])⟩
      | none => ""
    else ""
  let subject_pref :=
    if subject ≠ "" then
      pyStrip (pyTake 50 (pySubCI false reDigits [.lit "*N*"]
        (pySubCI false reIsoDate [.lit "*DATE*"]
          (pySubCI false reBracketNum [.lit "[*]"] subject))))
    else ""
  let body_markers :=
    if body ≠ "" then MARKERS.filter (fun m => pyIn m (pyTake 2000 (pyLower body))) else []
  let sig_str := from_domain ++ "|" ++ subject_pref ++ "|" ++ String.intercalate "," body_markers
  (pyTake 16 (sha256Hex (utf8Encode sig_str)),
   { from_domain := from_domain, subject_pref := subject_pref,
     body_markers := sortStrings body_markers })

/-- What `re.search(pattern, text, re.IGNORECASE)` produced for a runtime rule
pattern: the whole match and the capture groups (`none` for a group that did
not participate). -/
structure MatchData where
  full : String
  groups : List (Option String)
deriving DecidableEq

/-- An abstract `re` engine for runtime patterns: compile-or-apply failure,
no match, or a match. -/
abbrev RxEngine := String → String → Except Unit (Option MatchData)

/-- One cached extraction rule (`{source, regex, group, normalize}`);
`group` defaults to 1 as in `rule.get("group", 1)`. -/
structure Rule where
  source : Option String := none
  regex : Option String := none
  group : Int := 1
  normalize : List (String × String) := []
deriving DecidableEq

/-- `match.group(group) if group <= len(match.groups()) else match.group(0)`:
indices above the capture count fall back to the whole match, index 0 is the
whole match, and a negative index raises (`IndexError`, caught by the caller). -/
def extractGroup (md : MatchData) (group : Int) : Except Unit (Option String) :=
  if group ≤ md.groups.length then
    if group = 0 then .ok (some md.full)
    else if 0 < group then .ok (md.groups.getD (group.toNat - 1) none)
    else .error ()
  else .ok (some md.full)

/-- The normalize-map application inside `apply_extraction_rules`: for a truthy
value, the first map key equal to it case-insensitively replaces it. -/
def applyNormalize (normalize : List (String × String)) (value : Option String) :
    Option String :=
  match value with
  | some v =>
    if ¬normalize.isEmpty ∧ v ≠ "" then
      match normalize.find? (fun kv => pyUpper kv.1 == pyUpper v) with
      | some kv => some kv.2
      | none => some v
    else some v
  | none => none

/-- The per-field body of `apply_extraction_rules`' loop: `none` means the
field is skipped (falsy rule, null regex, engine failure, no match, or a
raising group index — the `except` arm); `some v` means `result[field] = v`. -/
def ruleOutcome (engine : RxEngine) (subject body : String) : Option Rule →
    Option (Option String)
  | none => none
  | some rule =>
    match rule.regex with
    | none => none
    | some pattern =>
      let source_text := if rule.source == some "subject" then subject else body
      match engine pattern source_text with
      | .error _ => none
      | .ok none => none
      | .ok (some md) =>
        match extractGroup md rule.group with
        | .error _ => none
        | .ok value => some (applyNormalize rule.normalize value)

/-- `LLMParser.apply_extraction_rules`. -/
def apply_extraction_rules (engine : RxEngine) (rules : List (String × Option Rule))
    (subject body : String) : List (String × Option String) :=
  rules.foldl (fun result p =>
    match ruleOutcome engine subject body p.2 with
    | none => result
    | some v => result ++ [(p.1, v)]) []

/-- `extracted.get(field)`. -/
def lookupField (l : List (String × Option String)) (f : String) : Option String :=
  match l.find? (fun p => p.1 == f) with
  | some p => p.2
  | none => none

/-- `schemas.LLMExtractionResult.sanitize_strings`. -/
def sanitize_str (v : Option String) : Option String :=
  v.map (fun s => pyTake 255 (pyStrip s))

/-- `schemas.LLMExtractionResult.normalize_severity`'s lookup table. -/
def severity_norm_map : List (String × String) :=
  [("critical", "critical"), ("crit", "critical"), ("emergency", "critical"),
   ("alert", "critical"), ("excessive", "high"), ("firing", "high"), ("high", "high"),
   ("major", "high"), ("error", "high"), ("warning", "medium"), ("warn", "medium"),
   ("medium", "medium"), ("minor", "low"), ("low", "low"), ("info", "info"),
   ("informational", "info"), ("ok", "info"), ("resolved", "info"), ("recovery", "info"),
   ("green", "info"), ("yellow", "medium"), ("red", "critical")]

def normalize_severity (v : Option String) : Option String :=
  match v with
  | none => none
  | some s =>
    let k := pyStrip (pyLower s)
    some ((((severity_norm_map.find? (fun kv => kv.1 == k)).map (fun kv => kv.2))).getD "medium")

def normalize_state (v : Option String) : Option String :=
  match v with
  | none => none
  | some s =>
    let k := pyStrip (pyLower s)
    if ["ok", "resolved", "recovery", "green", "closed", "clear"].contains k then
      some "resolved"
    else if ["problem", "critical", "warning", "firing", "red", "yellow", "triggered",
             "open"].contains k then
      some "firing"
    else some "unknown"

def truncate_summary (v : Option String) : Option String :=
  v.map (fun s => pyTake 1000 (pyStrip s))

/-- The validated form of an LLM extraction. -/
structure ValidatedExtraction where
  host : Option String
  service : Option String
  severity : Option String
  state : Option String
  summary : Option String
  confidence : Int
deriving DecidableEq

/-- `schemas.LLMExtractionResult` construction: string fields are sanitized /
normalized by the `mode='before'` validators; a confidence outside `[0, 1]`
raises `ValidationError`. -/
def LLMExtractionResult_validate (host service severity state summary : Option String)
    (confidence : Int) : Except Unit ValidatedExtraction :=
  if 0 ≤ confidence ∧ confidence ≤ 100 then
    .ok { host := sanitize_str host, service := sanitize_str service,
          severity := normalize_severity severity, state := normalize_state state,
          summary := truncate_summary summary, confidence := confidence }
  else .error ()

/-- A row of `pattern_cache`.  The `INSERT` omits `match_count`; its DDL
default is not under `src/` — `Modelled from the spec:` a fresh `PatternCache`
row counts its creating match once (`match_count = 1`), so that the conflict
increment of `cache_pattern` yields the spec's arithmetic. -/
structure PatternRow where
  id : Nat
  source_name : String
  source_tool : String
  extraction_rules : List (String × Option Rule)
  from_domain : String := ""
  subject_pref : String := ""
  body_markers : List String := []
  match_count : Nat := 1
  last_matched_at : Option Int := none
deriving DecidableEq

/-- A row of `quarantine_events` (the fields the parser writes). -/
structure QuarantineRow where
  email_id : Nat
  confidence : Int
  reason : String
deriving DecidableEq

/-- A row of `pattern_extraction_log`. -/
structure ExtractionLogRow where
  email_id : Nat
  pattern_id : Option Nat
  extraction_type : String
  confidence : Int
deriving DecidableEq

/-- The store state threaded through the learning parser
(`pattern_cache` keyed by the unique `signature_hash`). -/
structure PStore where
  pattern_cache : List (String × PatternRow) := []
  extraction_log : List ExtractionLogRow := []
  quarantined : List QuarantineRow := []
  nextPatternId : Nat := 500
deriving DecidableEq

/-- The parsed JSON object `call_llm_for_extraction` returns (after repair),
or `none` when the call or parse failed.  Dictionary `.get` defaults are
applied at use sites. -/
structure LlmResult where
  extracted_host : Option String := none
  extracted_service : Option String := none
  extracted_severity : Option String := none
  extracted_state : Option String := none
  extracted_summary : Option String := none
  source_name : Option String := none
  extraction_rules : List (String × Option Rule) := []
  confidence : Option Int := none
deriving DecidableEq

def pyReplaceSp (s : String) : String :=
  ⟨s.data.map (fun c => if c == ' ' then '_' else c)⟩

/-- The `source_name → source_tool` mapping shared by `cache_pattern` and
`parse_email`: lowercase, spaces to underscores, then the first table key that
occurs as a substring wins. -/
def mapSourceTool (toolMap : List (String × String)) (source_name : String) : String :=
  let source_tool := pyReplaceSp (pyLower source_name)
  match toolMap.find? (fun kv => pyIn kv.1 source_tool) with
  | some kv => kv.2
  | none => source_tool

/-- `cache_pattern`'s `tool_map`. -/
def cachePatternToolMap : List (String × String) :=
  [("xymon", "xymon"), ("business_service_alert", "business_service"),
   ("splunk_alert", "splunk"), ("nagios", "nagios"), ("prometheus", "prometheus"),
   ("zabbix", "zabbix"), ("pagerduty", "pagerduty"), ("datadog", "datadog")]

/-- `parse_email`'s `tool_map`. -/
def parseEmailToolMap : List (String × String) :=
  [("xymon", "xymon"), ("business_service", "business_service"), ("splunk", "splunk"),
   ("nagios", "nagios"), ("prometheus", "prometheus")]

/-- `LLMParser.cache_pattern`: upsert by signature hash — a conflict only
increments `match_count` and refreshes `last_matched_at`, a fresh insert
stores the rules (with the modelled `match_count = 1` default). -/
def cache_pattern (now : Int) (sig_hash : String) (sig_components : SigComponents)
    (source_name : String) (extraction_rules : List (String × Option Rule))
    (st : PStore) : Option Nat × PStore :=
  let source_tool := mapSourceTool cachePatternToolMap source_name
  match st.pattern_cache.find? (fun p => p.1 == sig_hash) with
  | some existing =>
    (some existing.2.id,
     { st with pattern_cache := st.pattern_cache.map fun p =>
         if p.1 == sig_hash then
           (p.1, { p.2 with match_count := p.2.match_count + 1, last_matched_at := some now })
         else p })
  | none =>
    let row : PatternRow :=
      { id := st.nextPatternId, source_name := source_name, source_tool := source_tool,
        extraction_rules := extraction_rules,
        from_domain := sig_components.from_domain,
        subject_pref := sig_components.subject_pref,
        body_markers := sig_components.body_markers,
        match_count := 1, last_matched_at := none }
    (some row.id,
     { st with pattern_cache := st.pattern_cache ++ [(sig_hash, row)],
               nextPatternId := st.nextPatternId + 1 })

/-- The dictionary `parse_email` returns. -/
structure ParseOutcome where
  host : Option String := none
  service : Option String := none
  severity : Option String := none
  state : Option String := none
  summary : Option String := none
  source_tool : String
  source_name : String
  extraction_type : String
  confidence : Int
deriving DecidableEq

/-- `LLMParser.parse_email`: signature → cache lookup → cached-rule
application, or LLM call, validation, confidence gating, caching and audit
logging, as in the source. -/
def parse_email (engine : RxEngine) (llm : Option LlmResult) (now : Int) (email_id : Nat)
    (subject from_address body : String) (st : PStore) : ParseOutcome × PStore :=
  let sigPair := compute_signature subject from_address body
  let sig_hash := sigPair.1
  match st.pattern_cache.find? (fun p => p.1 == sig_hash) with
  | some cached =>
    let extracted := apply_extraction_rules engine cached.2.extraction_rules subject body
    let st1 := { st with extraction_log := st.extraction_log ++
      [{ email_id := email_id, pattern_id := some cached.2.id,
         extraction_type := "cached_match", confidence := 90 }] }
    ({ host := lookupField extracted "host",
       service := lookupField extracted "service",
       severity := lookupField extracted "severity",
       state := lookupField extracted "state",
       summary := lookupField extracted "summary",
       source_tool := cached.2.source_tool,
       source_name := cached.2.source_name,
       extraction_type := "cached", confidence := 90 }, st1)
  | none =>
    match llm with
    | none =>
      ({ source_tool := "unknown", source_name := "Unknown",
         extraction_type := "llm_failed", confidence := 0 }, st)
    | some lr =>
      let source_name := lr.source_name.getD "Unknown Alert"
      let confidence0 := lr.confidence.getD 50
      match LLMExtractionResult_validate lr.extracted_host lr.extracted_service
          lr.extracted_severity lr.extracted_state lr.extracted_summary confidence0 with
      | .error _ =>
        let st1 := { st with quarantined := st.quarantined ++
          [{ email_id := email_id, confidence := confidence0,
             reason := "validation_failed" }] }
        ({ source_tool := "unknown", source_name := "Unknown",
           extraction_type := "quarantined", confidence := 0 }, st1)
      | .ok v =>
        let confidence := v.confidence
        if confidence < QUARANTINE_THRESHOLD then
          let st1 := { st with quarantined := st.quarantined ++
            [{ email_id := email_id, confidence := confidence,
               reason := "low_confidence" }] }
          ({ source_tool := "unknown", source_name := "Unknown",
             extraction_type := "quarantined", confidence := confidence }, st1)
        else
          let cachePair :=
            if confidence ≥ CONFIDENCE_THRESHOLD then
              cache_pattern now sig_hash sigPair.2 source_name lr.extraction_rules st
            else (none, st)
          let st2 := { cachePair.2 with extraction_log := cachePair.2.extraction_log ++
            [{ email_id := email_id, pattern_id := cachePair.1,
               extraction_type :=
                 if confidence ≥ CONFIDENCE_THRESHOLD then "learned_new" else "low_confidence",
               confidence := confidence }] }
          ({ host := v.host, service := v.service, severity := v.severity,
             state := v.state, summary := v.summary,
             source_tool := mapSourceTool parseEmailToolMap source_name,
             source_name := source_name,
             extraction_type :=
               if confidence ≥ CONFIDENCE_THRESHOLD then "learned" else "low_confidence",
             confidence := confidence }, st2)

/-- The severity invariant of the data model: under the rank ordering the
effective `severity_max` (with the legacy `severity` fallback the code applies)
dominates the effective `severity_current`. -/
def sevInvariant (i : IncidentRow) : Prop :=
  sevIdx (i.severity_current.getD i.severity) ≤ sevIdx (i.severity_max.getD i.severity)

instance sevInvariantDecidable : DecidablePred sevInvariant := fun i => by
  unfold sevInvariant; infer_instance

/-! ## Concrete scenario inputs -/

/-- A firing event at time `t` (minutes) for the host `web-01` / `cpu_load`. -/
def fireEv (t : Int) : CEvent :=
  { fingerprint := some "fp1", fingerprint_v2 := some "fp2", severity := some .high,
    state := some .firing, occurred_at := some t,
    host := some "web-01", check_name := some "cpu_load" }

/-- The matching resolved event at time `t`. -/
def resolveEv (t : Int) : CEvent := { fireEv t with state := some .resolved }

/-- Quiet-period scenario: firing at `t = 0`. -/
def c1store1 : CStore := (process_event {} 0 (fireEv 0) {}).2

/-- Quiet-period scenario: resolved at `t = 5` (`W_quiet = 30`). -/
def c1store2 : CStore := (process_event {} 5 (resolveEv 5) c1store1).2

/-- Quiet-period scenario: one scheduler cycle at `t = 36 > 35`, no further
events. -/
def c1store3 : CStore := _run_periodic_tasks (fun _ _ => false) {} 36 c1store2

/-- A resolved event with no matching incident anywhere. -/
def c2ev : CEvent :=
  { fingerprint := some "fpA", fingerprint_v2 := some "fpA2",
    state := some .resolved, occurred_at := some 0 }

/-- An incident resolved 10 minutes ago under fingerprint `fpA`. -/
def c2recent : IncidentRow :=
  { id := 7, fingerprint := some "fpA", status := .resolved, resolved_at := some (-10) }

/-- A resolved incident under the fingerprints of `c3fire`. -/
def c3resolved : IncidentRow :=
  { id := 3, fingerprint := some "fpA", fingerprint_v2 := some "fpA2",
    status := .resolved, flap_count := 0, resolved_at := some 0 }

/-- A firing event for the fingerprint of the resolved incident `c3resolved`. -/
def c3fire : CEvent :=
  { fingerprint := some "fpA", fingerprint_v2 := some "fpA2",
    state := some .firing, occurred_at := some 1 }

/-- An idempotency store in which another worker holds `k1` as `processing`. -/
def c6store : IdemStore :=
  [("k1", { status := .processing, result := none, expires_at := 1000 })]

/-- A high-confidence LLM extraction (`0.9`) naming the Xymon source. -/
def c7llm : LlmResult := { source_name := some "Xymon", confidence := some 90 }

/-- Learning-cache scenario, first email: cache miss, LLM extraction at
confidence `0.9 ≥ τ_cache` caches the pattern. -/
def c7p1 : ParseOutcome × PStore :=
  parse_email (fun _ _ => .ok none) (some c7llm) 10 1
    "Alert" "alerts@foo.com" "severity critical" {}

/-- Learning-cache scenario, second identical email: cache hit. -/
def c7p2 : ParseOutcome × PStore :=
  parse_email (fun _ _ => .ok none) (some c7llm) 20 2
    "Alert" "alerts@foo.com" "severity critical" c7p1.2

/-! # Theorems -/

/-- Storing an event does not change the incidents table. -/
lemma store_event_incidents (now : Int) (ev : CEvent) (st : CStore) :
    (_store_event now ev st).2.incidents = st.incidents := rfl

/-- The open-incident lookup only reads the incidents table. -/
lemma findOpenIncident_store_event (ev ev' : CEvent) (now : Int) (st : CStore) :
    findOpenIncident ev (_store_event now ev' st).2 = findOpenIncident ev st := rfl

/-- The recent-resolved lookup only reads the incidents table. -/
lemma find_recent_store_event (now now' : Int) (ev' : CEvent) (fp : Option String)
    (st : CStore) :
    _find_recent_incident now fp (_store_event now' ev' st).2 =
      _find_recent_incident now fp st := rfl

/-- Linking an event does not change the incidents table. -/
lemma link_event_incidents (a b : Nat) (c : Bool) (st : CStore) :
    (_link_event a b c st).incidents = st.incidents := by
  unfold _link_event; split <;> rfl

/-- Creating an incident appends its row. -/
lemma create_incident_incidents (now : Int) (ev : CEvent) (st : CStore) :
    (_create_incident now ev st).2.incidents =
      st.incidents ++ [_create_incident_row now ev st.nextIncidentId] := rfl

/-- Storing an event does not advance the incident id counter. -/
lemma store_event_nextIncidentId (now : Int) (ev : CEvent) (st : CStore) :
    (_store_event now ev st).2.nextIncidentId = st.nextIncidentId := rfl

/-- The created row carries the id it was given. -/
lemma create_incident_row_id (now : Int) (ev : CEvent) (n : Nat) :
    (_create_incident_row now ev n).id = n := rfl

/-- Storing an event does not change the links table. -/
lemma store_event_links (now : Int) (ev : CEvent) (st : CStore) :
    (_store_event now ev st).2.links = st.links := rfl

/-- The stored event receives the next event id. -/
lemma store_event_id (now : Int) (ev : CEvent) (st : CStore) :
    (_store_event now ev st).1 = st.nextEventId := rfl

/-- C1 (counterexample): firing at `t = 0`, resolved at `t = 5` puts the
incident in `resolving` (the claim's first half), but the scheduler cycle at
`t = 36` — after `W_quiet = 30` minutes with no further events — leaves it in
`resolving` with no resolution reason: the resolving → resolved
(`explicit_clear`) transition is not performed by the scheduler, which only
auto-resolves after `H_stale = 24` hours with reason `stale`. -/
theorem c1_counterexample :
    c1store2.incidents.map (fun i => i.status) = [IncStatus.resolving] ∧
    c1store3.incidents.map (fun i => (i.status, i.resolution_reason)) =
      [(IncStatus.resolving, none)] := by
  decide

/-- C1 (amended): a resolved event moves an open/acknowledged incident to
`resolving`; the transition to `resolved` with reason `explicit_clear` happens
only when a **further resolved event** arrives more than `W_quiet` minutes
after the incident's last firing event; with no further events the scheduler
leaves a `resolving` incident untouched until `H_stale` (24 h) after
`last_seen_at`, when it auto-resolves with reason `stale` instead. -/
theorem c1_amended :
    (∀ (cfg : WSettings) (now : Int) (inc : IncidentRow) (ev : CEvent) (lf : Option Int),
      (inc.status = .open' ∨ inc.status = .acknowledged) → ev.state = some .resolved →
      (_update_incident_decide cfg now inc ev lf).status = .resolving ∧
      (_update_incident_decide cfg now inc ev lf).resolution_reason = none) ∧
    (∀ (cfg : WSettings) (now t : Int) (inc : IncidentRow) (ev : CEvent),
      inc.status = .resolving → ev.state = some .resolved →
      now - t > cfg.flap_quiet_time_minutes →
      (_update_incident_decide cfg now inc ev (some t)).status = .resolved ∧
      (_update_incident_decide cfg now inc ev (some t)).resolution_reason =
        some .explicit_clear) ∧
    (∀ (cfg : WSettings) (now : Int) (i : IncidentRow),
      i.status = .resolving → now - 60 * cfg.incident_auto_resolve_hours ≤ i.last_seen_at →
      auto_resolve_row cfg now i = i) ∧
    (∀ (cfg : WSettings) (now : Int) (i : IncidentRow),
      i.status = .resolving → i.last_seen_at < now - 60 * cfg.incident_auto_resolve_hours →
      (auto_resolve_row cfg now i).status = .resolved ∧
      (auto_resolve_row cfg now i).resolution_reason = some .stale) := by
  refine ⟨fun cfg now inc ev lf h hs => ?_, fun cfg now t inc ev h hs hq => ?_,
          fun cfg now i h hl => ?_, fun cfg now i h hl => ?_⟩
  · rcases h with h | h <;>
      simp [_update_incident_decide, h, hs]
  · have hq' : ¬(now - t ≤ cfg.flap_quiet_time_minutes) := not_le.mpr hq
    simp [_update_incident_decide, h, hs, hq]
  · simp [auto_resolve_row, openish, h, not_lt.mpr hl]
  · simp [auto_resolve_row, openish, h, hl]

/-- C1 (witness): the amended theorem applied at concrete inputs. -/
theorem c1_amended_witness :
    ((_update_incident_decide {} 5 { id := 11 } (resolveEv 5) none).status = .resolving ∧
     (_update_incident_decide {} 5 { id := 11 } (resolveEv 5) none).resolution_reason = none) ∧
    ((_update_incident_decide {} 36 { id := 11, status := .resolving } (resolveEv 36)
        (some 0)).status = .resolved ∧
     (_update_incident_decide {} 36 { id := 11, status := .resolving } (resolveEv 36)
        (some 0)).resolution_reason = some .explicit_clear) ∧
    auto_resolve_row {} 36 { id := 11, status := .resolving, last_seen_at := 5 } =
      { id := 11, status := .resolving, last_seen_at := 5 } ∧
    ((auto_resolve_row {} 2000 { id := 11, status := .resolving, last_seen_at := 5 }).status =
        .resolved ∧
     (auto_resolve_row {} 2000
        { id := 11, status := .resolving, last_seen_at := 5 }).resolution_reason =
        some .stale) :=
  ⟨c1_amended.1 {} 5 { id := 11 } (resolveEv 5) none (Or.inl rfl) rfl,
   c1_amended.2.1 {} 36 0 { id := 11, status := .resolving } (resolveEv 36) rfl rfl (by decide),
   c1_amended.2.2.1 {} 36 { id := 11, status := .resolving, last_seen_at := 5 } rfl (by decide),
   c1_amended.2.2.2 {} 2000 { id := 11, status := .resolving, last_seen_at := 5 } rfl (by decide)⟩

/-- C2 (counterexample): a resolved event whose fingerprint matches no
incident at all — in particular no recently resolved one — **does** create a
new incident (status `open`), where the claim says none is created. -/
theorem c2_counterexample :
    (process_event {} 0 c2ev {}).2.incidents.length = 1 ∧
    (process_event {} 0 c2ev {}).2.incidents.map (fun i => i.status) = [IncStatus.open'] := by
  decide

/-- C2 (amended): when a resolved event matches no open-ish incident, the
correlator looks for an incident with the same **legacy (v1)** fingerprint
resolved within the last hour; if one exists the event is only linked to it
(incident rows unchanged) and its id is returned; otherwise a **new incident
is created** (status `open`) and its id is returned. -/
theorem c2_amended :
    (∀ (cfg : WSettings) (now : Int) (ev : CEvent) (st : CStore) (recent : IncidentRow),
      ¬(¬truthy ev.fingerprint_v2 ∧ ¬truthy ev.fingerprint) →
      findOpenIncident ev st = none →
      ev.state = some EvState.resolved →
      _find_recent_incident now ev.fingerprint st = some recent →
      (∀ l ∈ st.links, l.alert_event_id ≠ st.nextEventId) →
      (process_event cfg now ev st).1 = some recent.id ∧
      (process_event cfg now ev st).2.incidents = st.incidents ∧
      (process_event cfg now ev st).2.links = st.links ++
        [{ incident_id := recent.id, alert_event_id := st.nextEventId,
           is_deduplicated := false }]) ∧
    (∀ (cfg : WSettings) (now : Int) (ev : CEvent) (st : CStore),
      ¬(¬truthy ev.fingerprint_v2 ∧ ¬truthy ev.fingerprint) →
      findOpenIncident ev st = none →
      ev.state = some EvState.resolved →
      _find_recent_incident now ev.fingerprint st = none →
      (process_event cfg now ev st).1 = some st.nextIncidentId ∧
      (process_event cfg now ev st).2.incidents =
        st.incidents ++ [_create_incident_row now ev st.nextIncidentId]) := by
  constructor
  · intro cfg now ev st recent hg hopen hs hrec hlinks
    simp only [Bool.not_eq_true] at hg
    have hany : (st.links.any fun l =>
        l.incident_id == recent.id && l.alert_event_id == st.nextEventId) = false := by
      rw [List.any_eq_false]
      intro l hl
      simp only [Bool.and_eq_true, beq_iff_eq, not_and]
      exact fun _ => hlinks l hl
    simp [process_event, hg, findOpenIncident_store_event, hopen, hs,
      find_recent_store_event, hrec, link_event_incidents, store_event_incidents,
      _link_event, store_event_links, store_event_id, hany]
  · intro cfg now ev st hg hopen hs hrec
    simp only [Bool.not_eq_true] at hg
    simp [process_event, hg, findOpenIncident_store_event, hopen, hs,
      find_recent_store_event, hrec, link_event_incidents, create_incident_incidents,
      store_event_incidents, store_event_nextIncidentId, create_incident_row_id,
      _create_incident]

/-- C2 (witness): the amended theorem applied at concrete inputs. -/
theorem c2_amended_witness :
    ((process_event {} 0 c2ev { incidents := [c2recent] }).1 = some c2recent.id ∧
     (process_event {} 0 c2ev { incidents := [c2recent] }).2.incidents = [c2recent] ∧
     (process_event {} 0 c2ev { incidents := [c2recent] }).2.links =
       [{ incident_id := c2recent.id, alert_event_id := 0, is_deduplicated := false }]) ∧
    ((process_event {} 0 c2ev {}).1 = some (100 : Nat) ∧
     (process_event {} 0 c2ev {}).2.incidents = [_create_incident_row 0 c2ev 100]) :=
  ⟨c2_amended.1 {} 0 c2ev { incidents := [c2recent] } c2recent (by decide) (by decide)
     (by decide) (by decide) (fun l hl => absurd hl (List.not_mem_nil l)),
   c2_amended.2 {} 0 c2ev {} (by decide) (by decide) (by decide) (by decide)⟩

/-- C3 (failing input, evaluated): a firing event for fingerprint `fpA`/`fpA2`
whose incident (id 3) is `resolved` creates a **new** incident (id 100) instead
of reopening incident 3: the open-ish `SELECT` excludes `resolved` rows, so the
reopen branch of `_update_incident` (which lists `"resolved"`) is unreachable
for them.  The resolved incident keeps `status = resolved`, `flap_count = 0`. -/
theorem c3_failing_input_eval :
    (process_event {} 1 c3fire { incidents := [c3resolved] }).1 = some 100 ∧
    ((process_event {} 1 c3fire { incidents := [c3resolved] }).2.incidents.map
      (fun i => (i.id, i.status, i.flap_count))) =
      [(3, IncStatus.resolved, 0), (100, IncStatus.open', 0)] := by
  decide

/-- Severity fields of `_update_incident_decide`: `severity_current` tracks the
event, `severity_max` dominates both it and the previous effective maximum. -/
lemma upd_decide_severity (cfg : WSettings) (now : Int) (inc : IncidentRow) (ev : CEvent)
    (lf : Option Int) :
    (_update_incident_decide cfg now inc ev lf).severity_current = ev.severity.getD .medium ∧
    sevIdx (_update_incident_decide cfg now inc ev lf).severity_current ≤
      sevIdx (_update_incident_decide cfg now inc ev lf).severity_max ∧
    sevIdx (inc.severity_max.getD inc.severity) ≤
      sevIdx (_update_incident_decide cfg now inc ev lf).severity_max := by
  unfold _update_incident_decide
  by_cases h : sevIdx (inc.severity_max.getD inc.severity) < sevIdx (ev.severity.getD .medium) <;>
    simp [h] <;> omega

/-- `applyUpdate` writes the decision's severities into the row. -/
lemma applyUpdate_severity (d : UpdDecision) (now occ : Int) (row : IncidentRow) :
    (applyUpdate d now occ row).severity_current = some d.severity_current ∧
    (applyUpdate d now occ row).severity_max = some d.severity_max := by
  unfold applyUpdate
  by_cases h : d.flap_inc <;> simp [h]

/-- C5: after `_create_incident` the three severity columns coincide, and after
every `_update_incident` decision `severity_current` equals the event's
severity, `severity_max` dominates it under the rank ordering and never
decreases; consequently `process_event` preserves the store-wide invariant
`rank(severity_current) ≤ rank(severity_max)`. -/
theorem c5_severity_invariant :
    (∀ (cfg : WSettings) (now : Int) (inc : IncidentRow) (ev : CEvent) (lf : Option Int),
      (_update_incident_decide cfg now inc ev lf).severity_current =
        ev.severity.getD .medium ∧
      sevIdx (_update_incident_decide cfg now inc ev lf).severity_current ≤
        sevIdx (_update_incident_decide cfg now inc ev lf).severity_max ∧
      sevIdx (inc.severity_max.getD inc.severity) ≤
        sevIdx (_update_incident_decide cfg now inc ev lf).severity_max) ∧
    (∀ (now : Int) (ev : CEvent) (nid : Nat),
      (_create_incident_row now ev nid).severity_current =
        some (ev.severity.getD .medium) ∧
      (_create_incident_row now ev nid).severity_max =
        some (ev.severity.getD .medium)) ∧
    (∀ (cfg : WSettings) (now : Int) (ev : CEvent) (st : CStore),
      (∀ i ∈ st.incidents, sevInvariant i) →
      ∀ i' ∈ (process_event cfg now ev st).2.incidents, sevInvariant i') := by
  refine ⟨upd_decide_severity, fun now ev nid => ⟨rfl, rfl⟩, ?_⟩
  intro cfg now ev st hInv i' hi'
  by_cases hg : ¬truthy ev.fingerprint_v2 ∧ ¬truthy ev.fingerprint
  · simp only [Bool.not_eq_true] at hg
    simp [process_event, hg] at hi'
    exact hInv i' hi'
  · simp only [Bool.not_eq_true] at hg
    rcases hfo : findOpenIncident ev st with _ | ex
    · by_cases hs : ev.state = some EvState.resolved
      · rcases hr : _find_recent_incident now ev.fingerprint st with _ | rec
        · simp [process_event, hg, findOpenIncident_store_event, hfo, hs,
            find_recent_store_event, hr, link_event_incidents, create_incident_incidents,
            store_event_incidents, store_event_nextIncidentId] at hi'
          rcases hi' with hi' | hi'
          · exact hInv i' hi'
          · subst hi'
            unfold sevInvariant _create_incident_row
            simp
        · simp [process_event, hg, findOpenIncident_store_event, hfo, hs,
            find_recent_store_event, hr, link_event_incidents, store_event_incidents] at hi'
          exact hInv i' hi'
      · simp [process_event, hg, findOpenIncident_store_event, hfo, hs,
          link_event_incidents, create_incident_incidents, store_event_incidents,
          store_event_nextIncidentId] at hi'
        rcases hi' with hi' | hi'
        · exact hInv i' hi'
        · subst hi'
          unfold sevInvariant _create_incident_row
          simp
    · simp [process_event, hg, findOpenIncident_store_event, hfo, link_event_incidents,
        _update_incident, store_event_incidents] at hi'
      rcases hi' with ⟨i, hmem, heq⟩
      rw [← heq]
      split
      · have hsev := applyUpdate_severity
          (_update_incident_decide cfg now ex ev (lastFiringTime ex.id (_store_event now ev st).2))
          now (ev.occurred_at.getD now) i
        unfold sevInvariant
        rw [hsev.1, hsev.2]
        exact (upd_decide_severity cfg now ex ev _).2.1
      · exact hInv i hmem

/-- C5 (witness): the invariant-preservation part applied to a fresh store and
the incident it creates. -/
theorem c5_witness : sevInvariant (_create_incident_row 0 (fireEv 0) 100) :=
  c5_severity_invariant.2.2 {} 0 (fireEv 0) {}
    (fun i hi => absurd hi (List.not_mem_nil i))
    (_create_incident_row 0 (fireEv 0) 100) (by decide)

/-- One value-list/regex dimension of `_matches_scope` agrees with the amended
characterization. -/
lemma scopeDimCheck_eq_spec (rmatch : String → String → Bool) (vals : List String)
    (rx : Option String) (fv : String) :
    scopeDimCheck rmatch vals rx fv = scopeDimSpec rmatch vals rx fv := by
  unfold scopeDimCheck scopeDimSpec
  by_cases h1 : fv = ""
  · simp [h1]
  · have h1' : (fv == "") = false := beq_eq_false_iff_ne.mpr h1
    by_cases h2 : vals.isEmpty
    · by_cases h3 : truthy rx <;>
        simp [h1, h1', h2, h3, List.isEmpty_iff.mp h2]
    · by_cases h4 : vals.contains fv <;> by_cases h3 : truthy rx <;>
        simp [h1, h1', h2, h3, h4]

/-- The environments / regions block of `_matches_scope` agrees with the
amended characterization. -/
lemma scopeExact_eq_spec (vals : List String) (v : Option String) :
    (if !vals.isEmpty && truthy v then vals.contains (v.getD "") else true) =
      scopeExactSpec vals v := by
  by_cases h1 : vals.isEmpty <;> by_cases h2 : truthy v <;>
    simp [scopeExactSpec, h1, h2]

/-- The tags block of `_matches_scope` agrees with the amended characterization. -/
lemma scopeTags_eq_spec (scopeTags incidentTags : List String) :
    (if !scopeTags.isEmpty then scopeTags.any (fun t => incidentTags.contains t)
     else true) = scopeTagsSpec scopeTags incidentTags := by
  by_cases h : scopeTags.isEmpty <;> simp [scopeTagsSpec, h]

/-- C8 (counterexample): value lists are matched case-sensitively — an incident
with host `WEB-01` is **not** in the scope `{hosts: ["web-01"]}` although the
claim's case-insensitive reading requires it — and an incident whose host field
is empty bypasses the hosts dimension entirely, matching a scope the claim says
it should fail. -/
theorem c8_counterexample :
    _matches_scope (fun _ _ => false) { id := 8, host := some "WEB-01" }
      { hosts := ["web-01"] } = false ∧
    _matches_scope (fun _ _ => false) { id := 9 } { hosts := ["web-01"] } = true := by
  decide

/-- C8 (amended): an incident is in a window's scope iff every dimension
passes, where a hosts/services dimension passes iff the incident's field is
empty, or the dimension is unconstrained, or the field equals one of the
listed values **case-sensitively**, or the (truthy) regex matches it via the
engine (`re.match`, case-insensitive); an environments/regions dimension
passes iff unconstrained, the field is empty, or the exact value is listed;
the tags dimension passes iff unconstrained or some scope tag is among the
incident's tags.  A scope with every dimension empty matches every incident. -/
theorem c8_matches_scope :
    (∀ (rmatch : String → String → Bool) (inc : IncidentRow) (scope : MScope),
      _matches_scope rmatch inc scope = matchesScopeSpec rmatch inc scope) ∧
    (∀ (rmatch : String → String → Bool) (inc : IncidentRow),
      _matches_scope rmatch inc {} = true) := by
  have main : ∀ (rmatch : String → String → Bool) (inc : IncidentRow) (scope : MScope),
      _matches_scope rmatch inc scope = matchesScopeSpec rmatch inc scope := by
    intro rmatch inc scope
    simp only [_matches_scope, matchesScopeSpec, scopeDimCheck_eq_spec,
      scopeExact_eq_spec, scopeTags_eq_spec]
  refine ⟨main, fun rmatch inc => ?_⟩
  rw [main]
  simp [matchesScopeSpec, scopeDimSpec, scopeExactSpec, scopeTagsSpec, truthy]

/-- A substitution pass whose pattern finds no match leaves the text unchanged. -/
lemma pySubCI_no_match (ci : Bool) (r : RE) (tmpl : List TPart) (s : String)
    (h : reFindGo ci r (s.data.length + 1) [] none s.data = none) :
    pySubCI ci r tmpl s = s := by
  show String.mk (pySubGo ci r tmpl (s.data.length + 1) [] none s.data) = s
  simp only [pySubGo, h, List.nil_append]

/-- Folding the pattern list over a text none of the patterns matches leaves
it unchanged. -/
lemma foldl_pySub_no_match :
    ∀ (l : List (RE × List TPart)) (s : String),
      (∀ pr ∈ l, reSearchB pr.1 s = false) →
      l.foldl (fun acc pr => pySub pr.1 pr.2 acc) s = s := by
  intro l
  induction l with
  | nil => intro s _; rfl
  | cons p tl ih =>
    intro s h
    have h1 : reSearchB p.1 s = false := h p (List.mem_cons_self p tl)
    have h2 : reFindGo true p.1 (s.data.length + 1) [] none s.data = none := by
      unfold reSearchB reFind reFindCI at h1
      cases hf : reFindGo true p.1 (s.data.length + 1) [] none s.data with
      | none => rfl
      | some x => rw [hf] at h1; simp at h1
    have h3 : pySub p.1 p.2 s = s := pySubCI_no_match true p.1 p.2 s h2
    rw [List.foldl_cons, h3, ih s (fun pr hpr => h pr (List.mem_cons_of_mem p hpr))]

/-- C9 (counterexample): `"password=hunter2"` contains a substring matching
the password rule, and `redact` of it still contains a substring matching that
same rule — the replacement `\1=[REDACTED_PASSWORD]` itself matches, since
`\S+` accepts the placeholder. -/
theorem c9_counterexample :
    reSearchB rePassword "password=hunter2" = true ∧
    redact "password=hunter2" = "password=[REDACTED_PASSWORD]" ∧
    reSearchB rePassword (redact "password=hunter2") = true := by
  refine ⟨by decide, ?_, ?_⟩ <;> decide

/-- C9 (amended): `redact` applies every rule's substitution in order and a
text matching no configured pattern passes through unchanged, but the
no-residual-match guarantee does not hold in general: the password rule's
replacement still matches the password pattern for each of its key
alternatives, and the connection-string rule's replacement likewise matches
its own pattern, so those redactions leave a matching substring (with the
secret replaced by a placeholder). -/
theorem c9_redact :
    (∀ s : String, (∀ pr ∈ DEFAULT_PATTERNS, reSearchB pr.1 s = false) → redact s = s) ∧
    reSearchB rePassword "password=[REDACTED_PASSWORD]" = true ∧
    reSearchB rePassword "passwd=[REDACTED_PASSWORD]" = true ∧
    reSearchB rePassword "pwd=[REDACTED_PASSWORD]" = true ∧
    reSearchB reConnString "mysql://[user]:[REDACTED_PASSWORD]@" = true := by
  refine ⟨fun s h => ?_, by decide, by decide, by decide, by decide⟩
  unfold redact
  split
  · rfl
  · exact foldl_pySub_no_match DEFAULT_PATTERNS s h

/-- C9 (witness): a benign text matches no pattern and passes through. -/
theorem c9_redact_witness : redact "all services nominal" = "all services nominal" :=
  c9_redact.1 "all services nominal" (by decide)

/-- Updating a key's row rewrites exactly that key's lookup. -/
lemma idemLookup_idemSet (key : String) (f : IdemRow → IdemRow) (st : IdemStore) :
    idemLookup key (idemSet key f st) = (idemLookup key st).map f := by
  induction st with
  | nil => rfl
  | cons p tl ih =>
    unfold idemSet at ih ⊢
    rw [List.map_cons]
    by_cases hp : (p.1 == key) = true
    · rw [if_pos hp]
      simp [idemLookup, hp]
    · rw [if_neg hp]
      simp only [idemLookup]
      rw [if_neg hp, if_neg hp]
      exact ih

/-- A key appended to a store that lacks it is found. -/
lemma idemLookup_append (key : String) (row : IdemRow) (st : IdemStore)
    (h : idemLookup key st = none) :
    idemLookup key (st ++ [(key, row)]) = some row := by
  induction st with
  | nil => simp [idemLookup]
  | cons p tl ih =>
    by_cases hp : (p.1 == key) = true
    · simp [idemLookup, hp] at h
    · have h' : idemLookup key tl = none := by simpa [idemLookup, hp] using h
      simpa [idemLookup, hp] using ih h'

/-- C6 (counterexample): with key `k1` held by another worker in status
`processing`, `with_idempotency` does **not** return a skip sentinel — it
executes the operation and returns its result (so the operation can run more
than once across workers); the `{"_status": "processing"}` sentinel is
produced only by the separate `check_idempotency` helper. -/
theorem c6_counterexample :
    (with_idempotency (fun v : String => v) (fun b => b) "k1" 24 0
        (.ok (some "v")) c6store).opRan = true ∧
    (with_idempotency (fun v : String => v) (fun b => b) "k1" 24 0
        (.ok (some "v")) c6store).result = .ok (some "v") ∧
    check_idempotency (fun b : String => b) "k1" 0 c6store =
      CheckResult.processingSentinel :=
  ⟨rfl, rfl, rfl⟩

/-- C6 (amended): when the key is already `completed` with a truthy cached
blob the wrapper returns the deserialized blob without running the operation;
two sequential invocations from a fresh key hence return the same value and
run the operation exactly once to completion; but when another worker holds
the key in `processing` the wrapper executes the operation anyway (no skip
sentinel) — the sentinel is `check_idempotency`'s, for unexpired
`processing` keys. -/
theorem c6_with_idempotency :
    (∀ (J : Type) (enc : J → String) (dec : String → J) (key : String) (ttl now : Int)
       (op : Except Unit (Option J)) (st : IdemStore) (row : IdemRow) (b : String),
      idemLookup key st = some row → row.status = .completed → row.result = some b →
      b ≠ "" →
      (with_idempotency enc dec key ttl now op st).result = .ok (some (dec b)) ∧
      (with_idempotency enc dec key ttl now op st).opRan = false ∧
      (with_idempotency enc dec key ttl now op st).store = st) ∧
    (∀ (J : Type) (enc : J → String) (dec : String → J) (key : String)
       (ttl now ttl' now' : Int) (v : J) (op2 : Except Unit (Option J)) (st : IdemStore),
      idemLookup key st = none → dec (enc v) = v → enc v ≠ "" →
      (with_idempotency enc dec key ttl now (.ok (some v)) st).result = .ok (some v) ∧
      (with_idempotency enc dec key ttl now (.ok (some v)) st).opRan = true ∧
      (with_idempotency enc dec key ttl' now' op2
          (with_idempotency enc dec key ttl now (.ok (some v)) st).store).result =
        .ok (some v) ∧
      (with_idempotency enc dec key ttl' now' op2
          (with_idempotency enc dec key ttl now (.ok (some v)) st).store).opRan = false) ∧
    (∀ (J : Type) (enc : J → String) (dec : String → J) (key : String) (ttl now : Int)
       (op : Except Unit (Option J)) (st : IdemStore) (row : IdemRow),
      idemLookup key st = some row → row.status = .processing →
      (with_idempotency enc dec key ttl now op st).opRan = true) ∧
    (∀ (J : Type) (dec : String → J) (key : String) (now : Int) (st : IdemStore)
       (row : IdemRow),
      idemLookup key st = some row → row.status = .processing → row.expires_at > now →
      check_idempotency dec key now st = CheckResult.processingSentinel) := by
  refine ⟨?_, ?_, ?_, ?_⟩
  · intro J enc dec key ttl now op st row b h hst hres hb
    have hfind : (idemLookup key st).isSome = true := by rw [h]; rfl
    simp [with_idempotency, idemInsertIfAbsent, hfind, h, hst, hres, hb]
  · intro J enc dec key ttl now ttl' now' v op2 st h hdec henc
    have hfind : (idemLookup key st).isSome = false := by rw [h]; rfl
    have hlook1 : idemLookup key
        (st ++ [(key, { status := .processing, result := none,
                        expires_at := now + 60 * ttl })]) =
        some { status := .processing, result := none, expires_at := now + 60 * ttl } :=
      idemLookup_append key _ st h
    have hrun1 : with_idempotency enc dec key ttl now (.ok (some v)) st =
        { result := .ok (some v),
          store := idemSet key
            (fun r => { r with status := .completed, result := some (enc v) })
            (st ++ [(key, { status := .processing, result := none,
                            expires_at := now + 60 * ttl })]),
          opRan := true } := by
      simp [with_idempotency, idemInsertIfAbsent, hfind, hlook1]
    have hstore : (with_idempotency enc dec key ttl now (Except.ok (some v)) st).store =
        idemSet key (fun r => { r with status := .completed, result := some (enc v) })
          (st ++ [(key, { status := .processing, result := none,
                          expires_at := now + 60 * ttl })]) := by
      rw [hrun1]
    have hlook2 : idemLookup key
        (idemSet key (fun r => { r with status := .completed, result := some (enc v) })
          (st ++ [(key, { status := .processing, result := none,
                          expires_at := now + 60 * ttl })])) =
        some { status := .completed, result := some (enc v),
               expires_at := now + 60 * ttl } := by
      rw [idemLookup_idemSet, hlook1]
      rfl
    have hfind2 : (idemLookup key
        (idemSet key (fun r => { r with status := .completed, result := some (enc v) })
          (st ++ [(key, { status := .processing, result := none,
                          expires_at := now + 60 * ttl })]))).isSome = true := by
      rw [hlook2]; rfl
    refine ⟨by rw [hrun1], by rw [hrun1], ?_, ?_⟩ <;>
      rw [hstore] <;>
      simp [with_idempotency, idemInsertIfAbsent, hfind2, hlook2, henc, hdec]
  · intro J enc dec key ttl now op st row h hst
    have hfind : (idemLookup key st).isSome = true := by rw [h]; rfl
    cases op <;> simp [with_idempotency, idemInsertIfAbsent, hfind, h, hst]
  · intro J dec key now st row h hst hexp
    simp [check_idempotency, h, hst, hexp]

/-- C6 (witness): the amended theorem applied at concrete inputs
(a completed key with blob `"42"`, a fresh key, and the processing store). -/
theorem c6_with_idempotency_witness :
    ((with_idempotency (fun v : String => v) (fun b => b) "k2" 24 0 (.ok (some "x"))
        [("k2", { status := .completed, result := some "42", expires_at := 500 })]).result =
      .ok (some "42") ∧
     (with_idempotency (fun v : String => v) (fun b => b) "k2" 24 0 (.ok (some "x"))
        [("k2", { status := .completed, result := some "42", expires_at := 500 })]).opRan =
      false ∧
     (with_idempotency (fun v : String => v) (fun b => b) "k2" 24 0 (.ok (some "x"))
        [("k2", { status := .completed, result := some "42", expires_at := 500 })]).store =
      [("k2", { status := .completed, result := some "42", expires_at := 500 })]) ∧
    ((with_idempotency (fun v : String => v) (fun b => b) "k3" 24 0
        (.ok (some "fresh")) []).result = .ok (some "fresh") ∧
     (with_idempotency (fun v : String => v) (fun b => b) "k3" 24 0
        (.ok (some "fresh")) []).opRan = true ∧
     (with_idempotency (fun v : String => v) (fun b => b) "k3" 25 1 (.error ())
        (with_idempotency (fun v : String => v) (fun b => b) "k3" 24 0
          (.ok (some "fresh")) []).store).result = .ok (some "fresh") ∧
     (with_idempotency (fun v : String => v) (fun b => b) "k3" 25 1 (.error ())
        (with_idempotency (fun v : String => v) (fun b => b) "k3" 24 0
          (.ok (some "fresh")) []).store).opRan = false) ∧
    (with_idempotency (fun v : String => v) (fun b => b) "k1" 24 0 (.error ())
        c6store).opRan = true ∧
    check_idempotency (fun b : String => b) "k1" 0 c6store =
      CheckResult.processingSentinel :=
  ⟨c6_with_idempotency.1 String (fun v => v) (fun b => b) "k2" 24 0 (.ok (some "x"))
      [("k2", { status := .completed, result := some "42", expires_at := 500 })]
      { status := .completed, result := some "42", expires_at := 500 } "42"
      rfl rfl rfl (by decide),
   c6_with_idempotency.2.1 String (fun v => v) (fun b => b) "k3" 24 0 25 1 "fresh"
      (.error ()) [] rfl rfl (by decide),
   c6_with_idempotency.2.2.1 String (fun v => v) (fun b => b) "k1" 24 0 (.error ())
      c6store { status := .processing, result := none, expires_at := 1000 } rfl rfl,
   c6_with_idempotency.2.2.2 String (fun b => b) "k1" 0 c6store
      { status := .processing, result := none, expires_at := 1000 } rfl rfl (by decide)⟩

/-- C7 (counterexample): two identical emails with the same signature hash —
the first triggering an LLM extraction at confidence `0.9 ≥ τ_cache` that
creates the `PatternCache` row, the second hitting the cache — leave exactly
one `PatternCache` row whose `match_count` is **1**, not 2: the cache-hit path
(`find_cached_pattern`) only reads the row, and the conflict increment of
`cache_pattern` never runs on a hit.  The second extraction is returned with
confidence 0.9 as claimed. -/
theorem c7_counterexample :
    c7p2.2.pattern_cache.map (fun p => p.2.match_count) = [1] ∧
    c7p2.1.confidence = 90 ∧
    c7p2.1.extraction_type = "cached" := by
  decide

/-- C7 (amended): in the two-email scenario exactly one `PatternCache` row
exists for the signature hash and its `match_count` equals **1** (its value at
insertion): the second, cache-hitting extraction is returned with confidence
0.9 and extraction type `cached` but does not modify the row — `match_count`
increments only when a later LLM extraction at confidence ≥ τ_cache
re-inserts the same signature hash. -/
theorem c7_pattern_cache :
    ∀ (engine : RxEngine) (lr : LlmResult) (llm2 : Option LlmResult) (now1 now2 : Int)
      (id1 id2 : Nat) (subject from_address body : String) (c : Int),
      lr.confidence = some c → CONFIDENCE_THRESHOLD ≤ c → c ≤ 100 →
      (parse_email engine llm2 now2 id2 subject from_address body
          (parse_email engine (some lr) now1 id1 subject from_address body
            {}).2).2.pattern_cache.map (fun p => p.2.match_count) = [1] ∧
      (parse_email engine llm2 now2 id2 subject from_address body
          (parse_email engine (some lr) now1 id1 subject from_address body
            {}).2).1.confidence = 90 ∧
      (parse_email engine llm2 now2 id2 subject from_address body
          (parse_email engine (some lr) now1 id1 subject from_address body
            {}).2).1.extraction_type = "cached" := by
  intro engine lr llm2 now1 now2 id1 id2 subject from_address body c hc h75 h100
  have h0 : (0 : Int) ≤ c := by simp only [CONFIDENCE_THRESHOLD] at h75; omega
  have hcond : 0 ≤ c ∧ c ≤ 100 := ⟨h0, h100⟩
  have hq : ¬(c < QUARANTINE_THRESHOLD) := by
    simp only [CONFIDENCE_THRESHOLD] at h75
    simp only [QUARANTINE_THRESHOLD]
    omega
  have hr1 : (parse_email engine (some lr) now1 id1 subject from_address body {}).2 =
      { pattern_cache := [((compute_signature subject from_address body).1,
          { id := 500,
            source_name := lr.source_name.getD "Unknown Alert",
            source_tool := mapSourceTool cachePatternToolMap
              (lr.source_name.getD "Unknown Alert"),
            extraction_rules := lr.extraction_rules,
            from_domain := (compute_signature subject from_address body).2.from_domain,
            subject_pref := (compute_signature subject from_address body).2.subject_pref,
            body_markers := (compute_signature subject from_address body).2.body_markers,
            match_count := 1, last_matched_at := none })],
        extraction_log := [{ email_id := id1, pattern_id := some 500,
                             extraction_type := "learned_new", confidence := c }],
        quarantined := [], nextPatternId := 501 } := by
    simp [parse_email, hc, LLMExtractionResult_validate, hcond, hq, ge_iff_le, h75,
      cache_pattern]
  rw [hr1]
  simp [parse_email, beq_self_eq_true]

/-- C7 (witness): the amended theorem applied at the concrete scenario. -/
theorem c7_pattern_cache_witness :
    (parse_email (fun _ _ => .ok none) (some c7llm) 20 2
        "Alert" "alerts@foo.com" "severity critical"
        (parse_email (fun _ _ => .ok none) (some c7llm) 10 1
          "Alert" "alerts@foo.com" "severity critical"
          {}).2).2.pattern_cache.map (fun p => p.2.match_count) = [1] ∧
    (parse_email (fun _ _ => .ok none) (some c7llm) 20 2
        "Alert" "alerts@foo.com" "severity critical"
        (parse_email (fun _ _ => .ok none) (some c7llm) 10 1
          "Alert" "alerts@foo.com" "severity critical"
          {}).2).1.confidence = 90 ∧
    (parse_email (fun _ _ => .ok none) (some c7llm) 20 2
        "Alert" "alerts@foo.com" "severity critical"
        (parse_email (fun _ _ => .ok none) (some c7llm) 10 1
          "Alert" "alerts@foo.com" "severity critical"
          {}).2).1.extraction_type = "cached" :=
  c7_pattern_cache (fun _ _ => .ok none) c7llm (some c7llm) 10 20 1 2
    "Alert" "alerts@foo.com" "severity critical" 90 rfl (by decide) (by decide)

/-- The `result` accumulator of `apply_extraction_rules`' loop collects
exactly the per-field outcomes. -/
lemma apply_rules_foldl (engine : RxEngine) (subject body : String) :
    ∀ (rules : List (String × Option Rule)) (acc : List (String × Option String)),
      rules.foldl (fun result p =>
        match ruleOutcome engine subject body p.2 with
        | none => result
        | some v => result ++ [(p.1, v)]) acc =
      acc ++ rules.filterMap (fun p =>
        (ruleOutcome engine subject body p.2).map (fun v => (p.1, v))) := by
  intro rules
  induction rules with
  | nil => intro acc; simp
  | cons p tl ih =>
    intro acc
    rw [List.foldl_cons, List.filterMap_cons]
    cases h : ruleOutcome engine subject body p.2 <;> simp [h, ih]

/-- C10: `apply_extraction_rules` is a total function of the rules, the text
and the abstract engine outcome: its result is exactly the fields whose rule
survived every step; a falsy rule or a null regex contributes nothing; an
engine failure (compile or apply) or a non-match contributes nothing; a group
index beyond the capture count falls back to the whole match (with the
normalize map applied); and a matched rule with a non-negative group index
always lands in the result. -/
theorem c10_apply_extraction_rules :
    (∀ (engine : RxEngine) (rules : List (String × Option Rule)) (subject body : String),
      apply_extraction_rules engine rules subject body =
        rules.filterMap (fun p =>
          (ruleOutcome engine subject body p.2).map (fun v => (p.1, v)))) ∧
    (∀ (engine : RxEngine) (subject body : String),
      ruleOutcome engine subject body none = none) ∧
    (∀ (engine : RxEngine) (subject body : String) (r : Rule),
      r.regex = none → ruleOutcome engine subject body (some r) = none) ∧
    (∀ (engine : RxEngine) (subject body : String) (r : Rule) (p : String),
      r.regex = some p →
      engine p (if r.source == some "subject" then subject else body) = .error () →
      ruleOutcome engine subject body (some r) = none) ∧
    (∀ (engine : RxEngine) (subject body : String) (r : Rule) (p : String),
      r.regex = some p →
      engine p (if r.source == some "subject" then subject else body) = .ok none →
      ruleOutcome engine subject body (some r) = none) ∧
    (∀ (engine : RxEngine) (subject body : String) (r : Rule) (p : String) (md : MatchData),
      r.regex = some p →
      engine p (if r.source == some "subject" then subject else body) = .ok (some md) →
      (md.groups.length : Int) < r.group →
      ruleOutcome engine subject body (some r) =
        some (applyNormalize r.normalize (some md.full))) ∧
    (∀ (engine : RxEngine) (subject body : String) (r : Rule) (p : String) (md : MatchData),
      r.regex = some p →
      engine p (if r.source == some "subject" then subject else body) = .ok (some md) →
      0 ≤ r.group →
      (ruleOutcome engine subject body (some r)).isSome = true) := by
  refine ⟨?_, fun _ _ _ => rfl, ?_, ?_, ?_, ?_, ?_⟩
  · intro engine rules subject body
    unfold apply_extraction_rules
    rw [apply_rules_foldl]
    simp
  · intro engine subject body r h
    simp [ruleOutcome, h]
  · intro engine subject body r p h he
    simp only [beq_iff_eq] at he
    simp [ruleOutcome, h, he]
  · intro engine subject body r p h he
    simp only [beq_iff_eq] at he
    simp [ruleOutcome, h, he]
  · intro engine subject body r p md h he hlt
    have hn : ¬(r.group ≤ (md.groups.length : Int)) := not_le.mpr hlt
    simp only [beq_iff_eq] at he
    simp [ruleOutcome, h, he, extractGroup, hn]
  · intro engine subject body r p md h he hge
    simp only [beq_iff_eq] at he
    simp only [ruleOutcome, h, beq_iff_eq, he, extractGroup]
    split_ifs with h1 h2 h3
    · simp
    · simp
    · exact absurd (lt_of_le_of_ne hge (fun hh => h2 hh.symm)) h3
    · simp

/-- C10 (witness): the theorem applied at a concrete rule set and engine. -/
theorem c10_witness :
    (ruleOutcome (fun _ _ => Except.ok (some { full := "m", groups := [] }))
        "s" "b" (some { regex := some "x", group := 5 }) =
      some (applyNormalize [] (some "m"))) ∧
    ruleOutcome (fun _ _ => Except.error ()) "s" "b" (some { regex := some "x" }) = none ∧
    apply_extraction_rules (fun _ _ => Except.ok none) [("f", none)] "s" "b" =
      List.filterMap (fun p => (ruleOutcome (fun _ _ => Except.ok none) "s" "b" p.2).map
        (fun v => (p.1, v))) [("f", none)] :=
  ⟨c10_apply_extraction_rules.2.2.2.2.2.1 (fun _ _ => Except.ok (some { full := "m", groups := [] }))
      "s" "b" { regex := some "x", group := 5 } "x" { full := "m", groups := [] }
      rfl rfl (by decide),
   c10_apply_extraction_rules.2.2.2.1 (fun _ _ => Except.error ()) "s" "b"
      { regex := some "x" } "x" rfl rfl,
   c10_apply_extraction_rules.1 (fun _ _ => Except.ok none) [("f", none)] "s" "b"⟩

/-- FIPS 180-4 test vector: the digest of the empty message. -/
theorem sha256_empty_vector :
    sha256Hex [] = "e3b0c44298fc1c149afbf4c8996fb92427ae41e4649b934ca495991b7852b855" := by
  decide

/-- FIPS 180-4 test vector: the digest of "abc". -/
theorem sha256_abc_vector :
    sha256Hex (utf8Encode "abc") =
      "ba7816bf8f01cfea414140de5dae2223b00361a396177a9cb410ff61f20015ad" := by
  decide

lemma normalize_component_eq (v : Option String) :
    _normalize_component v = pyStrip (pyLower (v.getD "")) := by
  cases v with
  | none => rfl
  | some s =>
    by_cases h : s = ""
    · subst h; rfl
    · simp [_normalize_component, h]

lemma normalize_signature_component_eq (s : String) :
    _normalize_signature_component s = pyTake 200 (pyLower s) := by
  by_cases h : s = ""
  · subst h; rfl
  · simp only [_normalize_signature_component, h, if_false, pyLower, pyTake]
    exact congrArg String.mk (List.map_take ..)

/-- C4 (counterexample): the claim's formula omits the whitespace stripping the
code applies to the environment / host / check components, so on an event whose
environment carries a leading space the two values differ. -/
theorem c4_counterexample :
    compute_fingerprint_v2
        { environment := some " prod", host := some "web-01",
          check_name := some "cpu_load", normalized_signature := "cpu load high" } ≠
      fingerprintV2SpecClaim
        { environment := some " prod", host := some "web-01",
          check_name := some "cpu_load", normalized_signature := "cpu load high" } := by
  decide

/-- C4 (amended): `compute_fingerprint_v2` equals SHA256 over
`strip(lower(env)) | strip(lower(host)) | strip(lower(check_name or service)) |
lower(normalized_signature)[:200]` truncated to 16 hex characters, and the
fingerprint is invariant under changes to the event's severity alone. -/
theorem c4_fingerprint_formula :
    (∀ e : FpEvent, compute_fingerprint_v2 e = fingerprintV2SpecAmended e) ∧
    (∀ (e : FpEvent) (s₁ s₂ : Option String),
      compute_fingerprint_v2 { e with severity := s₁ } =
        compute_fingerprint_v2 { e with severity := s₂ }) := by
  refine ⟨fun e => ?_, fun e s₁ s₂ => rfl⟩
  unfold compute_fingerprint_v2 fingerprintV2SpecAmended
  rw [normalize_component_eq, normalize_component_eq, normalize_component_eq,
    normalize_signature_component_eq]

end NgsProof
